import Mathlib

/-!
# Casper Excalibur WMI driver (casper-wmi.c): shallow embedding

The driver talks to firmware through one WMI data block.  The embedding keeps
the C names.  Machine integers are natural numbers, truncated explicitly where
the C code narrows them (u8, u16, u32).  Calls into the WMI block are recorded
in a call log, and the firmware is an arbitrary deterministic function of the
calls made so far.
-/

namespace Casper

/-! ## Constants of the driver -/

def CASPER_READ : Nat := 0xfa00
def CASPER_WRITE : Nat := 0xfb00
def CASPER_GET_HARDWAREINFO : Nat := 0x0200
def CASPER_SET_LED : Nat := 0x0100
def CASPER_POWERPLAN : Nat := 0x0300

def CASPER_KEYBOARD_LED_1 : Nat := 0x03
def CASPER_KEYBOARD_LED_2 : Nat := 0x04
def CASPER_KEYBOARD_LED_3 : Nat := 0x05
def CASPER_ALL_KEYBOARD_LEDS : Nat := 0x06
def CASPER_CORNER_LEDS : Nat := 0x07

def CASPER_LED_COUNT : Nat := 4

def zone_names : List String :=
  [ "casper:rgb:kbd_zoned_backlight-right",
    "casper:rgb:kbd_zoned_backlight-middle",
    "casper:rgb:kbd_zoned_backlight-left",
    "casper:rgb:biaslight" ]

/-- Kernel macro GENMASK(h, l) on a 64-bit unsigned long:
`((~0UL) - (1UL << l) + 1) & (~0UL >> (63 - h))`. -/
def GENMASK (h l : Nat) : Nat :=
  ((2 ^ 64 - 1) - 2 ^ l + 1) &&& ((2 ^ 64 - 1) >>> (63 - h))

def CASPER_LED_ALPHA : Nat := GENMASK 31 24
def CASPER_LED_RED : Nat := GENMASK 23 16
def CASPER_LED_GREEN : Nat := GENMASK 15 8
def CASPER_LED_BLUE : Nat := GENMASK 7 0

def CASPER_DEFAULT_COLOR : Nat :=
  CASPER_LED_RED ||| CASPER_LED_GREEN ||| CASPER_LED_BLUE

def CASPER_FAN_CPU : Int := 0
def CASPER_FAN_GPU : Int := 1

/-- Values of enum casper_power_profile_old. -/
def CASPER_HIGH_PERFORMANCE : Nat := 1
def CASPER_GAMING : Nat := 2
def CASPER_TEXT_MODE : Nat := 3
def CASPER_POWERSAVE : Nat := 4

/-- Values of enum casper_power_profile_new. -/
def CASPER_NEW_HIGH_PERFORMANCE : Nat := 0
def CASPER_NEW_GAMING : Nat := 1
def CASPER_NEW_AUDIO : Nat := 2

/-- Values of enum casper_led_mode. -/
def LED_NORMAL : Nat := 0x10
def LED_BLINK : Nat := 0x20
def LED_FADE : Nat := 0x30
def LED_HEARTBEAT : Nat := 0x40
def LED_REPEAT : Nat := 0x50
def LED_RANDOM : Nat := 0x60

/-- The six members of enum casper_led_mode. -/
def casper_led_modes : List Nat :=
  [LED_NORMAL, LED_BLINK, LED_FADE, LED_HEARTBEAT, LED_REPEAT, LED_RANDOM]

/-- Kernel errno values used by the driver. -/
def EIO : Int := 5
def ENOMEM : Int := 12
def ENODEV : Int := 19
def EINVAL : Int := 22

/-- Values of the kernel enum platform_profile_option (linux/platform_profile.h). -/
def PLATFORM_PROFILE_LOW_POWER : Nat := 0
def PLATFORM_PROFILE_COOL : Nat := 1
def PLATFORM_PROFILE_QUIET : Nat := 2
def PLATFORM_PROFILE_BALANCED : Nat := 3
def PLATFORM_PROFILE_BALANCED_PERFORMANCE : Nat := 4
def PLATFORM_PROFILE_PERFORMANCE : Nat := 5

/-- ACPI object type codes (acpi/actypes.h). -/
def ACPI_TYPE_INTEGER : Nat := 0x01
def ACPI_TYPE_STRING : Nat := 0x02
def ACPI_TYPE_BUFFER : Nat := 0x03
def ACPI_TYPE_PACKAGE : Nat := 0x04

/-! ## Data model -/

structure casper_quirk_entry where
  big_endian_fans : Bool := false
  no_power_profiles : Bool := false
  new_power_scheme : Bool := false
  deriving DecidableEq, Repr

/-- The command record: a0, a1 are u16, a2..a8 are u32. -/
structure casper_wmi_args where
  a0 : Nat := 0
  a1 : Nat := 0
  a2 : Nat := 0
  a3 : Nat := 0
  a4 : Nat := 0
  a5 : Nat := 0
  a6 : Nat := 0
  a7 : Nat := 0
  a8 : Nat := 0
  deriving DecidableEq, Repr

/-- The value of sizeof(struct casper_wmi_args): two u16 and seven u32, no padding. -/
def sizeof_casper_wmi_args : Nat := 2 + 2 + 7 * 4

/-- The struct acpi_buffer handed to wmidev_block_set: a length and the record
it points to. -/
structure acpi_buffer where
  length : Nat
  pointer : casper_wmi_args
  deriving DecidableEq, Repr

/-- The union acpi_object returned by wmidev_block_query, by type tag.  A
buffer object carries its bytes; its length field is the number of bytes. -/
inductive acpi_object where
  | integer (value : Nat)
  | string (pointer : List Nat)
  | buffer (pointer : List Nat)
  | package
  deriving DecidableEq, Repr

def acpi_object.type : acpi_object → Nat
  | .integer _ => ACPI_TYPE_INTEGER
  | .string _ => ACPI_TYPE_STRING
  | .buffer _ => ACPI_TYPE_BUFFER
  | .package => ACPI_TYPE_PACKAGE

def acpi_object.buffer_length : acpi_object → Nat
  | .buffer p => p.length
  | _ => 0

def acpi_object.buffer_pointer : acpi_object → List Nat
  | .buffer p => p
  | _ => []

/-- One call into the WMI data block. -/
inductive wmi_call where
  | block_set (input : acpi_buffer)
  | block_query
  deriving DecidableEq, Repr

/-- The WMI device (firmware side).  Its answers are a function of the calls
made so far: `block_set` tells whether wmidev_block_set succeeds
(ACPI_FAILURE is false), `block_query` is what wmidev_block_query returns
(none for a NULL object). -/
structure wmi_device where
  block_set : List wmi_call → acpi_buffer → Bool
  block_query : List wmi_call → Option acpi_object

/-- Little-endian read of a u16 at a byte offset. -/
def read_u16 (p : List Nat) (off : Nat) : Nat :=
  p.getD off 0 % 256 + 256 * (p.getD (off + 1) 0 % 256)

/-- Little-endian read of a u32 at a byte offset. -/
def read_u32 (p : List Nat) (off : Nat) : Nat :=
  p.getD off 0 % 256 + 256 * (p.getD (off + 1) 0 % 256)
    + 65536 * (p.getD (off + 2) 0 % 256) + 16777216 * (p.getD (off + 3) 0 % 256)

/-- The effect of `memcpy(out, pointer, sizeof(struct casper_wmi_args))` on a
little-endian machine: the 32 bytes laid over the fields in declaration order. -/
def memcpy_casper_wmi_args (p : List Nat) : casper_wmi_args :=
  { a0 := read_u16 p 0, a1 := read_u16 p 2,
    a2 := read_u32 p 4, a3 := read_u32 p 8, a4 := read_u32 p 12,
    a5 := read_u32 p 16, a6 := read_u32 p 20, a7 := read_u32 p 24,
    a8 := read_u32 p 28 }

/-! ## Command channel -/

/-- Result of casper_set: return value and the call log afterwards. -/
def casper_set (wdev : wmi_device) (log : List wmi_call) (a1 led_id data : Nat) :
    Int × List wmi_call :=
  let wmi_args : casper_wmi_args :=
    { a0 := CASPER_WRITE, a1 := a1 % 2 ^ 16, a2 := led_id % 2 ^ 8, a3 := data % 2 ^ 32 }
  let input : acpi_buffer := { length := sizeof_casper_wmi_args, pointer := wmi_args }
  let status := wdev.block_set log input
  let log1 := log ++ [wmi_call.block_set input]
  if !status then (- EIO, log1) else (0, log1)

/-- Result of casper_query: return value, the caller record `out` afterwards,
and the call log afterwards. -/
def casper_query (wdev : wmi_device) (log : List wmi_call) (a1 : Nat)
    (out : casper_wmi_args) : Int × casper_wmi_args × List wmi_call :=
  let wmi_args : casper_wmi_args := { a0 := CASPER_READ, a1 := a1 % 2 ^ 16 }
  let input : acpi_buffer := { length := sizeof_casper_wmi_args, pointer := wmi_args }
  let status := wdev.block_set log input
  let log1 := log ++ [wmi_call.block_set input]
  if !status then (- EIO, out, log1)
  else
    let log2 := log1 ++ [wmi_call.block_query]
    match wdev.block_query log1 with
    | none => (- EIO, out, log2)
    | some obj =>
      if obj.type ≠ ACPI_TYPE_BUFFER then (-EINVAL, out, log2)
      else if obj.buffer_length ≠ sizeof_casper_wmi_args then (- EIO, out, log2)
      else (0, memcpy_casper_wmi_args obj.buffer_pointer, log2)

/-! ## LED zone controller -/

/-- Kernel helper __bf_shf(mask): the index of the lowest set bit of the mask. -/
def bf_shf (mask : Nat) : Nat :=
  ((List.range 64).find? (fun i => mask.testBit i)).getD 0

/-- Kernel macro FIELD_PREP(mask, val) with a 64-bit unsigned long mask:
`((typeof(mask))(val) << __bf_shf(mask)) & (mask)`. -/
def FIELD_PREP (mask val : Nat) : Nat :=
  (((val % 2 ^ 64) <<< bf_shf mask) % 2 ^ 64) &&& mask

/-- Kernel macro FIELD_GET(mask, reg): `((reg) & (mask)) >> __bf_shf(mask)`. -/
def FIELD_GET (mask reg : Nat) : Nat :=
  (reg &&& mask) >>> bf_shf mask

structure mc_subled where
  color_index : Nat := 0
  brightness : Nat := 0
  intensity : Nat := 0
  deriving DecidableEq, Repr

/-- The fields of struct led_classdev the driver reads. -/
structure led_classdev where
  name : String := ""
  brightness : Nat := 0
  max_brightness : Nat := 0
  deriving DecidableEq, Repr

/-- One zone: `led_cdev` is mc_led.led_cdev, `subleds` the three colour
channels (red, green, blue). -/
structure casper_fourzone_led where
  led_cdev : led_classdev := {}
  subleds : List mc_subled := [{}, {}, {}]
  deriving DecidableEq, Repr

/-- Intensity of `z.subleds[j]`. -/
def casper_fourzone_led.intensity (z : casper_fourzone_led) (j : Nat) : Nat :=
  (z.subleds.getD j {}).intensity

structure casper_drv where
  leds : List casper_fourzone_led
  wdev : wmi_device
  quirk_applied : casper_quirk_entry

/-- Zone `drv->leds[zone]`. -/
def casper_drv.led (drv : casper_drv) (zone : Nat) : casper_fourzone_led :=
  drv.leds.getD zone {}

def get_zone_color (z : casper_fourzone_led) : Nat :=
  (FIELD_PREP CASPER_LED_RED (z.intensity 0) |||
   FIELD_PREP CASPER_LED_GREEN (z.intensity 1) |||
   FIELD_PREP CASPER_LED_BLUE (z.intensity 2)) % 2 ^ 32

/-- Returns the brightness and the call log afterwards. -/
def get_casper_brightness (drv : casper_drv) (log : List wmi_call)
    (led_cdev : led_classdev) : Nat × List wmi_call :=
  let hardware_alpha : casper_wmi_args := {}
  if led_cdev.name = zone_names.getD 3 "" then
    ((drv.led 3).led_cdev.brightness, log)
  else
    let r := casper_query drv.wdev log CASPER_GET_HARDWAREINFO hardware_alpha
    (r.2.1.a6, r.2.2)

/-- The zone lookup loop of set_casper_brightness: the last index whose name
equals the device name; `none` when no name matches (the C variable is then
left uninitialised). -/
def find_zone (name : String) : Option Nat :=
  (List.range CASPER_LED_COUNT).foldl
    (fun zone i => if name = zone_names.getD i "" then some i else zone) none

/-- The packed colour word of set_casper_brightness (lines 213 and 218), with
the mode constant of line 218 as a parameter:
`FIELD_PREP(CASPER_LED_ALPHA, brightness | mode) | (get_zone_color(z) & ~CASPER_LED_ALPHA)`. -/
def led_data (z : casper_fourzone_led) (brightness mode : Nat) : Nat :=
  let led_data_no_alpha := (get_zone_color z &&& (2 ^ 64 - 1 - CASPER_LED_ALPHA)) % 2 ^ 32
  (FIELD_PREP CASPER_LED_ALPHA (brightness ||| mode) ||| led_data_no_alpha) % 2 ^ 32

/-- The brightness that set_casper_brightness encodes (lines 215-216): the
requested one, or what get_casper_brightness returns when the requested one
equals the cached one.  Also returns the log afterwards. -/
def effective_brightness (drv : casper_drv) (log : List wmi_call) (zone : Nat)
    (brightness : Nat) : Nat × List wmi_call :=
  if brightness = (drv.led zone).led_cdev.brightness then
    get_casper_brightness drv log (drv.led zone).led_cdev
  else (brightness, log)

/-- Returns the call log afterwards; `none` when the zone variable is
uninitialised (no zone name matches the device). -/
def set_casper_brightness (drv : casper_drv) (log : List wmi_call)
    (led_cdev : led_classdev) (brightness : Nat) : Option (List wmi_call) :=
  match find_zone led_cdev.name with
  | none => none
  | some zone =>
    let zone_to_change : Nat :=
      if zone = 3 then CASPER_CORNER_LEDS else (zone + CASPER_KEYBOARD_LED_1) % 2 ^ 8
    let b := effective_brightness drv log zone brightness
    let data := led_data (drv.led zone) b.1 LED_NORMAL
    some (casper_set drv.wdev b.2 CASPER_SET_LED zone_to_change data).2

/-! ## Power profile mapper -/

/-- Kernel set_bit(nr, addr) on a bitmap held in one word. -/
def set_bit (nr : Nat) (addr : Nat) : Nat := addr ||| (1 <<< nr)

/-- Kernel test_bit(nr, addr). -/
def test_bit (nr : Nat) (addr : Nat) : Bool := addr.testBit nr

/-- Returns the return value and the choices bitmap afterwards. -/
def casper_platform_profile_probe (drv : casper_drv) (choices : Nat) : Int × Nat :=
  let c1 := set_bit PLATFORM_PROFILE_LOW_POWER choices
  let c2 := set_bit PLATFORM_PROFILE_BALANCED c1
  let c3 := if !drv.quirk_applied.new_power_scheme then
      set_bit PLATFORM_PROFILE_BALANCED_PERFORMANCE c2 else c2
  let c4 := set_bit PLATFORM_PROFILE_PERFORMANCE c3
  (0, c4)

/-- Returns the return value, `*profile` afterwards and the log afterwards. -/
def casper_platform_profile_get (drv : casper_drv) (log : List wmi_call)
    (profile : Nat) : Int × Nat × List wmi_call :=
  let ret_buff : casper_wmi_args := {}
  let r := casper_query drv.wdev log CASPER_POWERPLAN ret_buff
  if r.1 ≠ 0 then (r.1, profile, r.2.2)
  else
    let ret_buff := r.2.1
    if drv.quirk_applied.new_power_scheme then
      if ret_buff.a2 = CASPER_NEW_HIGH_PERFORMANCE then (0, PLATFORM_PROFILE_PERFORMANCE, r.2.2)
      else if ret_buff.a2 = CASPER_NEW_GAMING then (0, PLATFORM_PROFILE_BALANCED, r.2.2)
      else if ret_buff.a2 = CASPER_NEW_AUDIO then (0, PLATFORM_PROFILE_LOW_POWER, r.2.2)
      else (-EINVAL, profile, r.2.2)
    else
      if ret_buff.a2 = CASPER_HIGH_PERFORMANCE then (0, PLATFORM_PROFILE_PERFORMANCE, r.2.2)
      else if ret_buff.a2 = CASPER_GAMING then
        (0, PLATFORM_PROFILE_BALANCED_PERFORMANCE, r.2.2)
      else if ret_buff.a2 = CASPER_TEXT_MODE then (0, PLATFORM_PROFILE_BALANCED, r.2.2)
      else if ret_buff.a2 = CASPER_POWERSAVE then (0, PLATFORM_PROFILE_LOW_POWER, r.2.2)
      else (-EINVAL, profile, r.2.2)

/-- Returns the return value and the log afterwards. -/
def casper_platform_profile_set (drv : casper_drv) (log : List wmi_call)
    (profile : Nat) : Int × List wmi_call :=
  if drv.quirk_applied.new_power_scheme then
    if profile = PLATFORM_PROFILE_PERFORMANCE then
      casper_set drv.wdev log CASPER_POWERPLAN CASPER_NEW_HIGH_PERFORMANCE 0
    else if profile = PLATFORM_PROFILE_BALANCED then
      casper_set drv.wdev log CASPER_POWERPLAN CASPER_NEW_GAMING 0
    else if profile = PLATFORM_PROFILE_LOW_POWER then
      casper_set drv.wdev log CASPER_POWERPLAN CASPER_NEW_AUDIO 0
    else (-EINVAL, log)
  else
    if profile = PLATFORM_PROFILE_PERFORMANCE then
      casper_set drv.wdev log CASPER_POWERPLAN CASPER_HIGH_PERFORMANCE 0
    else if profile = PLATFORM_PROFILE_BALANCED_PERFORMANCE then
      casper_set drv.wdev log CASPER_POWERPLAN CASPER_GAMING 0
    else if profile = PLATFORM_PROFILE_BALANCED then
      casper_set drv.wdev log CASPER_POWERPLAN CASPER_TEXT_MODE 0
    else if profile = PLATFORM_PROFILE_LOW_POWER then
      casper_set drv.wdev log CASPER_POWERPLAN CASPER_POWERSAVE 0
    else (-EINVAL, log)

/-! ## Fan sensor decoder -/

/-- The four bytes of a u32 in memory on a little-endian machine. -/
def u32_bytes (x : Nat) : List Nat :=
  [x % 256, x / 256 % 256, x / 65536 % 256, x / 16777216 % 256]

/-- The expression `be16_to_cpu(*(__be16 *)&x)` for a u32 field x: the first two
bytes of the field in memory, read as a big-endian 16-bit number. -/
def be16_to_cpu_at (x : Nat) : Nat :=
  256 * (u32_bytes x).getD 0 0 + (u32_bytes x).getD 1 0

/-- Returns the return value, `*val` afterwards and the log afterwards. -/
def casper_wmi_hwmon_read (drv : casper_drv) (log : List wmi_call)
    (channel : Int) (val : Int) : Int × Int × List wmi_call :=
  let out : casper_wmi_args := {}
  let r := casper_query drv.wdev log CASPER_GET_HARDWAREINFO out
  if r.1 ≠ 0 then (r.1, val, r.2.2)
  else
    let out := r.2.1
    if channel = CASPER_FAN_CPU then
      if drv.quirk_applied.big_endian_fans then (0, (be16_to_cpu_at out.a4 : Nat), r.2.2)
      else (0, (out.a5 : Nat), r.2.2)
    else if channel = CASPER_FAN_GPU then
      if drv.quirk_applied.big_endian_fans then (0, (be16_to_cpu_at out.a5 : Nat), r.2.2)
      else (0, (out.a5 : Nat), r.2.2)
    else (0, val, r.2.2)

/-! ## Variant resolution and bind -/

/-- The fields of struct x86_cpu_id that X86_MATCH_VFM fills in. -/
structure x86_cpu_id where
  vendor : Nat
  family : Nat
  model : Nat
  driver_data : casper_quirk_entry
  deriving DecidableEq, Repr

/-- The fields of struct cpuinfo_x86 (the boot CPU) that x86_match_cpu compares. -/
structure cpuinfo_x86 where
  x86_vendor : Nat
  x86 : Nat
  x86_model : Nat
  deriving DecidableEq, Repr

def X86_VENDOR_ANY : Nat := 0xffff
def X86_FAMILY_ANY : Nat := 0
def X86_MODEL_ANY : Nat := 0

/-- Kernel macro X86_MATCH_VFM(vfm, data): vendor, family and model are the
three bytes of the VFM word; stepping and feature are wildcards. -/
def X86_MATCH_VFM (vfm : Nat) (data : casper_quirk_entry) : x86_cpu_id :=
  { vendor := (vfm >>> 16) &&& 0xff, family := (vfm >>> 8) &&& 0xff,
    model := vfm &&& 0xff, driver_data := data }

/-- The VFM constants of asm/intel-family.h that the casper_gen table names.
The header is not part of the driver source, so the values are a parameter. -/
structure intel_family where
  INTEL_KABYLAKE : Nat
  INTEL_COMETLAKE : Nat
  INTEL_TIGERLAKE : Nat
  INTEL_ALDERLAKE : Nat
  INTEL_RAPTORLAKE : Nat
  INTEL_METEORLAKE : Nat
  INTEL_RAPTORLAKE_S : Nat

/-- Kernel macro IFM(family, model) = VFM_MAKE(X86_VENDOR_INTEL, family, model),
with X86_VENDOR_INTEL = 0. -/
def IFM (family model : Nat) : Nat := (0 <<< 16) ||| (family <<< 8) ||| model

/-- The values the Linux header gives these constants. -/
def linux_intel_family : intel_family :=
  { INTEL_KABYLAKE := IFM 6 0x9E, INTEL_COMETLAKE := IFM 6 0xA5,
    INTEL_TIGERLAKE := IFM 6 0x8D, INTEL_ALDERLAKE := IFM 6 0x97,
    INTEL_RAPTORLAKE := IFM 6 0xB7, INTEL_METEORLAKE := IFM 6 0xAC,
    INTEL_RAPTORLAKE_S := IFM 6 0xBF }

def gen_older_than_11 : casper_quirk_entry :=
  { big_endian_fans := true, new_power_scheme := false }

def gen_newer_than_11 : casper_quirk_entry :=
  { big_endian_fans := false, new_power_scheme := true }

def casper_gen (fam : intel_family) : List x86_cpu_id :=
  [ X86_MATCH_VFM fam.INTEL_KABYLAKE gen_older_than_11,
    X86_MATCH_VFM fam.INTEL_COMETLAKE gen_older_than_11,
    X86_MATCH_VFM fam.INTEL_TIGERLAKE gen_newer_than_11,
    X86_MATCH_VFM fam.INTEL_ALDERLAKE gen_newer_than_11,
    X86_MATCH_VFM fam.INTEL_RAPTORLAKE gen_newer_than_11,
    X86_MATCH_VFM fam.INTEL_METEORLAKE gen_newer_than_11,
    X86_MATCH_VFM fam.INTEL_RAPTORLAKE_S gen_newer_than_11 ]

/-- One entry test of the kernel function x86_match_cpu (vendor, family, model;
the table entries leave stepping and feature as wildcards). -/
def x86_cpu_id.hit (m : x86_cpu_id) (c : cpuinfo_x86) : Bool :=
  (m.vendor == X86_VENDOR_ANY || c.x86_vendor == m.vendor) &&
  (m.family == X86_FAMILY_ANY || c.x86 == m.family) &&
  (m.model == X86_MODEL_ANY || c.x86_model == m.model)

/-- Kernel function x86_match_cpu: the first table entry the boot CPU hits. -/
def x86_match_cpu (table : List x86_cpu_id) (c : cpuinfo_x86) : Option x86_cpu_id :=
  table.find? (fun m => m.hit c)

/-- The two DMI fields the casper_quirks table matches on. -/
inductive dmi_field where
  | DMI_SYS_VENDOR
  | DMI_PRODUCT_NAME
  deriving DecidableEq, Repr

/-- One DMI_MATCH(slot, substr) item. -/
structure dmi_strmatch where
  slot : dmi_field
  substr : String
  deriving DecidableEq, Repr

structure dmi_system_id where
  ident : String
  strmatches : List dmi_strmatch
  driver_data : casper_quirk_entry
  deriving DecidableEq, Repr

def quirk_no_power_profile : casper_quirk_entry := { no_power_profiles := true }

def quirk_has_power_profile : casper_quirk_entry := { no_power_profiles := false }

def casper_quirk_row (ident product : String) (data : casper_quirk_entry) : dmi_system_id :=
  { ident := ident,
    strmatches := [ ⟨dmi_field.DMI_SYS_VENDOR, "CASPER BILGISAYAR SISTEMLERI"⟩,
                    ⟨dmi_field.DMI_PRODUCT_NAME, product⟩ ],
    driver_data := data }

def casper_quirks : List dmi_system_id :=
  [ casper_quirk_row "CASPER EXCALIBUR G650" "EXCALIBUR G650" quirk_no_power_profile,
    casper_quirk_row "CASPER EXCALIBUR G670" "EXCALIBUR G670" quirk_no_power_profile,
    casper_quirk_row "CASPER EXCALIBUR G750" "EXCALIBUR G750" quirk_no_power_profile,
    casper_quirk_row "CASPER EXCALIBUR G770" "EXCALIBUR G770" quirk_has_power_profile,
    casper_quirk_row "CASPER EXCALIBUR G780" "EXCALIBUR G780" quirk_has_power_profile,
    casper_quirk_row "CASPER EXCALIBUR G870" "EXCALIBUR G870" quirk_has_power_profile,
    casper_quirk_row "CASPER EXCALIBUR G900" "EXCALIBUR G900" quirk_has_power_profile,
    casper_quirk_row "CASPER EXCALIBUR G911" "EXCALIBUR G911" quirk_has_power_profile ]

/-- C strstr as a test: the needle occurs somewhere in the haystack. -/
def strstr : List Char → List Char → Bool
  | [], needle => needle.isEmpty
  | c :: hay, needle => needle.isPrefixOf (c :: hay) || strstr hay needle

/-- Kernel function dmi_matches for DMI_MATCH items: every item is a substring
of the corresponding DMI string of the machine (an absent string never matches). -/
def dmi_matches (dmi_ident : dmi_field → Option String) (dmi : dmi_system_id) : Bool :=
  dmi.strmatches.all (fun m =>
    match dmi_ident m.slot with
    | some s => strstr s.data m.substr.data
    | none => false)

/-- Kernel function dmi_first_match: the first table entry that matches. -/
def dmi_first_match (dmi_ident : dmi_field → Option String)
    (list : List dmi_system_id) : Option dmi_system_id :=
  list.find? (fun d => dmi_matches dmi_ident d)

/-- What the kernel and the machine answer during one casper_wmi_probe call. -/
structure probe_env where
  fam : intel_family
  boot_cpu_data : cpuinfo_x86
  dmi_ident : dmi_field → Option String
  devm_kzalloc_ok : Bool
  devm_mutex_init : Int
  devm_kcalloc_ok : Bool
  devm_led_classdev_multicolor_register : Nat → Int
  devm_hwmon_device_register_with_info : Int
  devm_platform_profile_register : Int
  wdev : wmi_device

def LED_COLOR_ID_RED : Nat := 1

/-- Zone i as the loop body of casper_multicolor_register fills it in. -/
def casper_multicolor_led (i : Nat) : casper_fourzone_led :=
  { led_cdev := { name := zone_names.getD i "", brightness := 0, max_brightness := 2 },
    subleds := (List.range 3).map (fun j =>
      { color_index := LED_COLOR_ID_RED + j, brightness := 255, intensity := 255 }) }

/-- The registration loop of casper_multicolor_register over the remaining
indices: the return value (-ENODEV at the first failed registration) and the
zone array afterwards. -/
def casper_multicolor_loop (reg : Nat → Int) :
    List Nat → List casper_fourzone_led → Int × List casper_fourzone_led
  | [], leds => (0, leds)
  | i :: rest, leds =>
    let leds1 := leds.set i (casper_multicolor_led i)
    if reg i ≠ 0 then (-ENODEV, leds1) else casper_multicolor_loop reg rest leds1

/-- Returns the return value, the zone array afterwards and the log afterwards. -/
def casper_multicolor_register (env : probe_env) (log : List wmi_call) :
    Int × List casper_fourzone_led × List wmi_call :=
  if !env.devm_kcalloc_ok then (-ENOMEM, [], log)
  else
    let zeroed : List casper_fourzone_led := List.replicate CASPER_LED_COUNT {}
    let l := casper_multicolor_loop env.devm_led_classdev_multicolor_register
      (List.range CASPER_LED_COUNT) zeroed
    if l.1 ≠ 0 then (l.1, l.2, log)
    else
      let s1 := casper_set env.wdev log CASPER_SET_LED CASPER_ALL_KEYBOARD_LEDS
        CASPER_DEFAULT_COLOR
      if s1.1 ≠ 0 then (s1.1, l.2, s1.2)
      else
        let s2 := casper_set env.wdev s1.2 CASPER_SET_LED CASPER_CORNER_LEDS
          CASPER_DEFAULT_COLOR
        (s2.1, l.2, s2.2)

/-- The outcome of casper_wmi_probe: the return value, the quirk profile
`drv->quirk_applied` points to once it has been assigned, the zone array, and
the call log. -/
structure probe_result where
  ret : Int
  quirk_applied : Option casper_quirk_entry := none
  leds : List casper_fourzone_led := []
  log : List wmi_call := []

def casper_wmi_probe (env : probe_env) : probe_result :=
  if !env.devm_kzalloc_ok then { ret := -ENOMEM }
  else
    match x86_match_cpu (casper_gen env.fam) env.boot_cpu_data with
    | none => { ret := -ENODEV }
    | some gen_id =>
      let quirk0 := gen_id.driver_data
      match dmi_first_match env.dmi_ident casper_quirks with
      | none => { ret := -ENODEV, quirk_applied := some quirk0 }
      | some dmi_id =>
        let pp_quirk := dmi_id.driver_data
        let quirk : casper_quirk_entry :=
          { quirk0 with no_power_profiles := pp_quirk.no_power_profiles }
        if env.devm_mutex_init ≠ 0 then
          { ret := env.devm_mutex_init, quirk_applied := some quirk }
        else
          let m := casper_multicolor_register env []
          if m.1 ≠ 0 then
            { ret := m.1, quirk_applied := some quirk, leds := m.2.1, log := m.2.2 }
          else if env.devm_hwmon_device_register_with_info ≠ 0 then
            { ret := env.devm_hwmon_device_register_with_info, quirk_applied := some quirk,
              leds := m.2.1, log := m.2.2 }
          else if !quirk.no_power_profiles then
            if env.devm_platform_profile_register ≠ 0 then
              { ret := env.devm_platform_profile_register, quirk_applied := some quirk,
                leds := m.2.1, log := m.2.2 }
            else { ret := 0, quirk_applied := some quirk, leds := m.2.1, log := m.2.2 }
          else { ret := 0, quirk_applied := some quirk, leds := m.2.1, log := m.2.2 }

/-! ## Records and tables used to state the properties -/

/-- The buffer casper_query hands to wmidev_block_set: a READ record for the
sub-command, all other fields zero. -/
def casper_read_input (a1 : Nat) : acpi_buffer :=
  { length := 32, pointer := { a0 := 0xfa00, a1 := a1 % 65536 } }

/-- A WRITE record for a sub-command, target id and payload, all other fields zero. -/
def casper_write_input (a1 id data : Nat) : acpi_buffer :=
  { length := 32, pointer := { a0 := 0xfb00, a1 := a1, a2 := id, a3 := data } }

/-- The zone table as the specification words it: logical zones 0, 1, 2 are
device sub-ids 0x03, 0x04, 0x05 and logical zone 3 is sub-id 0x07. -/
def spec_hardware_zone_code : Nat → Nat
  | 0 => 0x03
  | 1 => 0x04
  | 2 => 0x05
  | _ => 0x07

/-- The mapping table as the specification words it, from hardware code to
generic profile.  Old scheme: 1 PERFORMANCE, 2 BALANCED_PERFORMANCE, 3 BALANCED,
4 LOW_POWER.  New scheme: 0 PERFORMANCE, 1 BALANCED, 2 LOW_POWER. -/
def spec_mapping_table : Bool → Nat → Option Nat
  | false, 1 => some PLATFORM_PROFILE_PERFORMANCE
  | false, 2 => some PLATFORM_PROFILE_BALANCED_PERFORMANCE
  | false, 3 => some PLATFORM_PROFILE_BALANCED
  | false, 4 => some PLATFORM_PROFILE_LOW_POWER
  | true, 0 => some PLATFORM_PROFILE_PERFORMANCE
  | true, 1 => some PLATFORM_PROFILE_BALANCED
  | true, 2 => some PLATFORM_PROFILE_LOW_POWER
  | _, _ => none

/-- The hardware codes defined in a power scheme. -/
def defined_codes (new_power_scheme : Bool) : List Nat :=
  if new_power_scheme then [0, 1, 2] else [1, 2, 3, 4]

/-- Modelled from the spec: the driver only packs the colour word and has no
decoder.  The fields are extracted with the masks the driver packs with
(FIELD_GET), and the alpha byte is split into mode (`alpha & 0xF0`) and
brightness (`alpha & 0x0F`).  The result is (red, green, blue, brightness, mode). -/
def decode_led_data (w : Nat) : Nat × Nat × Nat × Nat × Nat :=
  let alpha := FIELD_GET CASPER_LED_ALPHA w
  (FIELD_GET CASPER_LED_RED w, FIELD_GET CASPER_LED_GREEN w, FIELD_GET CASPER_LED_BLUE w,
    alpha &&& 0x0F, alpha &&& 0xF0)

/-- The 16-bit byte swap `((x & 0xff) << 8) | ((x >> 8) & 0xff)`. -/
def swap16 (x : Nat) : Nat := ((x &&& 0xff) <<< 8) ||| ((x >>> 8) &&& 0xff)

/-! ## Concrete devices and driver states -/

/-- A device whose set succeeds and whose get returns the given object. -/
def wmi_device_answering (obj : Option acpi_object) : wmi_device :=
  { block_set := fun _ _ => true, block_query := fun _ => obj }

/-- A device whose every call fails. -/
def wmi_device_faulty : wmi_device :=
  { block_set := fun _ _ => false, block_query := fun _ => none }

/-- The bytes of a command record on the wire (little-endian, 32 bytes). -/
def casper_wmi_args.wire (r : casper_wmi_args) : List Nat :=
  [r.a0 % 256, r.a0 / 256 % 256, r.a1 % 256, r.a1 / 256 % 256]
    ++ u32_bytes r.a2 ++ u32_bytes r.a3 ++ u32_bytes r.a4 ++ u32_bytes r.a5
    ++ u32_bytes r.a6 ++ u32_bytes r.a7 ++ u32_bytes r.a8

/-- The driver state right after a successful bind, on a given device. -/
def casper_drv_bound (wdev : wmi_device) (quirk : casper_quirk_entry) : casper_drv :=
  { leds := (List.range CASPER_LED_COUNT).map casper_multicolor_led,
    wdev := wdev, quirk_applied := quirk }

/-- The bound driver state with the colour of one zone changed. -/
def casper_drv_colored (wdev : wmi_device) (quirk : casper_quirk_entry)
    (zone r g b : Nat) : casper_drv :=
  { leds := ((List.range CASPER_LED_COUNT).map casper_multicolor_led).modify
      (fun z => { z with subleds := [{ intensity := r }, { intensity := g }, { intensity := b }] })
      zone,
    wdev := wdev, quirk_applied := quirk }

/-- A bind environment in which every kernel call succeeds, for a given boot
CPU and DMI vendor and product strings, with the Linux values of the Intel
model constants. -/
def probe_env_sample (cpu : cpuinfo_x86) (vendor product : String) : probe_env :=
  { fam := linux_intel_family,
    boot_cpu_data := cpu,
    dmi_ident := fun f =>
      match f with
      | dmi_field.DMI_SYS_VENDOR => some vendor
      | dmi_field.DMI_PRODUCT_NAME => some product,
    devm_kzalloc_ok := true,
    devm_mutex_init := 0,
    devm_kcalloc_ok := true,
    devm_led_classdev_multicolor_register := fun _ => 0,
    devm_hwmon_device_register_with_info := 0,
    devm_platform_profile_register := 0,
    wdev := wmi_device_answering none }

/-! ## Bit-level lemmas -/

theorem CASPER_LED_ALPHA_eq : CASPER_LED_ALPHA = 255 <<< 24 := by decide
theorem CASPER_LED_RED_eq : CASPER_LED_RED = 255 <<< 16 := by decide
theorem CASPER_LED_GREEN_eq : CASPER_LED_GREEN = 255 <<< 8 := by decide
theorem CASPER_LED_BLUE_eq : CASPER_LED_BLUE = 255 <<< 0 := by decide
theorem bf_shf_ALPHA : bf_shf (255 <<< 24) = 24 := by decide
theorem bf_shf_RED : bf_shf (255 <<< 16) = 16 := by decide
theorem bf_shf_GREEN : bf_shf (255 <<< 8) = 8 := by decide
theorem bf_shf_BLUE : bf_shf (255 <<< 0) = 0 := by decide

theorem field_prep_byte (v k : Nat) (hk : k + 8 ≤ 64) :
    (((v % 2 ^ 64) <<< k) % 2 ^ 64) &&& (255 <<< k) = (v % 256) * 2 ^ k := by
  rw [← Nat.shiftLeft_eq]
  apply Nat.eq_of_testBit_eq
  intro i
  have h255 : (255 : Nat) = 2 ^ 8 - 1 := by norm_num
  have h256 : (256 : Nat) = 2 ^ 8 := by norm_num
  rw [h255, h256]
  simp only [Nat.testBit_and, Nat.testBit_shiftLeft, Nat.testBit_mod_two_pow,
    Nat.testBit_two_pow_sub_one]
  by_cases h1 : i ≥ k <;> by_cases h2 : i - k < 8 <;> by_cases h3 : i < 64 <;>
    by_cases h4 : i - k < 64 <;> simp [h1, h2, h3, h4] <;> omega

set_option maxRecDepth 100000 in
theorem byte_nibble_iff : ∀ b, b < 256 → ((b ||| 16) &&& 0xF0 = 0x10 ↔ b &&& 0xE0 = 0) := by
  decide



theorem FIELD_PREP_ALPHA (v : Nat) : FIELD_PREP CASPER_LED_ALPHA v = 2 ^ 24 * (v % 256) := by
  unfold FIELD_PREP
  rw [CASPER_LED_ALPHA_eq, bf_shf_ALPHA, field_prep_byte v 24 (by omega), Nat.mul_comm]

theorem FIELD_PREP_RED (v : Nat) : FIELD_PREP CASPER_LED_RED v = 2 ^ 16 * (v % 256) := by
  unfold FIELD_PREP
  rw [CASPER_LED_RED_eq, bf_shf_RED, field_prep_byte v 16 (by omega), Nat.mul_comm]

theorem FIELD_PREP_GREEN (v : Nat) : FIELD_PREP CASPER_LED_GREEN v = 2 ^ 8 * (v % 256) := by
  unfold FIELD_PREP
  rw [CASPER_LED_GREEN_eq, bf_shf_GREEN, field_prep_byte v 8 (by omega), Nat.mul_comm]

theorem FIELD_PREP_BLUE (v : Nat) : FIELD_PREP CASPER_LED_BLUE v = v % 256 := by
  unfold FIELD_PREP
  rw [CASPER_LED_BLUE_eq, bf_shf_BLUE, field_prep_byte v 0 (by omega)]
  simp

/-- The colour word is the three intensity bytes side by side. -/
theorem get_zone_color_eq (z : casper_fourzone_led) :
    get_zone_color z =
      65536 * (z.intensity 0 % 256) + 256 * (z.intensity 1 % 256) + z.intensity 2 % 256 := by
  unfold get_zone_color
  rw [FIELD_PREP_RED, FIELD_PREP_GREEN, FIELD_PREP_BLUE]
  have hr := Nat.mod_lt (z.intensity 0) (show 0 < 256 by decide)
  have hg := Nat.mod_lt (z.intensity 1) (show 0 < 256 by decide)
  have hb := Nat.mod_lt (z.intensity 2) (show 0 < 256 by decide)
  generalize z.intensity 0 % 256 = r at *
  generalize z.intensity 1 % 256 = g at *
  generalize z.intensity 2 % 256 = b at *
  have e1 : 2 ^ 16 * r ||| 2 ^ 8 * g = 2 ^ 8 * (256 * r + g) := by
    rw [← Nat.mul_add_lt_is_or (by omega : 2 ^ 8 * g < 2 ^ 16) r]
    omega
  rw [e1, ← Nat.mul_add_lt_is_or (by omega : b < 2 ^ 8)]
  omega

theorem not_alpha_mask : (2 ^ 64 - 1 - CASPER_LED_ALPHA) &&& (2 ^ 32 - 1) = 2 ^ 24 - 1 := by
  decide

/-- The packed word is the alpha byte above the 24 colour bits. -/
theorem led_data_eq (z : casper_fourzone_led) (brightness mode : Nat) :
    led_data z brightness mode =
      16777216 * ((brightness ||| mode) % 256) + get_zone_color z % 16777216 := by
  unfold led_data
  simp only
  rw [FIELD_PREP_ALPHA]
  have hn : (get_zone_color z &&& (2 ^ 64 - 1 - CASPER_LED_ALPHA)) % 2 ^ 32
      = get_zone_color z % 2 ^ 24 := by
    rw [← Nat.and_pow_two_sub_one_eq_mod, Nat.and_assoc, not_alpha_mask,
      Nat.and_pow_two_sub_one_eq_mod]
  rw [hn]
  have ha := Nat.mod_lt (brightness ||| mode) (show 0 < 256 by decide)
  have hc := Nat.mod_lt (get_zone_color z) (show 0 < 2 ^ 24 by decide)
  generalize (brightness ||| mode) % 256 = a at *
  generalize get_zone_color z % 2 ^ 24 = c at *
  rw [← Nat.mul_add_lt_is_or hc]
  omega



/-! ## Command channel -/

theorem sizeof_casper_wmi_args_eq : sizeof_casper_wmi_args = 32 := by decide

/-- Unfolding of casper_set: one set call with the WRITE record. -/
theorem casper_set_eq (wdev : wmi_device) (log : List wmi_call) (a1 led_id data : Nat) :
    casper_set wdev log a1 led_id data =
      (if wdev.block_set log (casper_write_input (a1 % 65536) (led_id % 256) (data % 4294967296))
        then 0 else - EIO,
       log ++ [wmi_call.block_set
         (casper_write_input (a1 % 65536) (led_id % 256) (data % 4294967296))]) := by
  unfold casper_set casper_write_input
  simp only [sizeof_casper_wmi_args_eq, CASPER_WRITE]
  cases wdev.block_set log _ <;> simp

/-- Unfolding of casper_query when phase 1 fails. -/
theorem casper_query_set_failed (wdev : wmi_device) (log : List wmi_call) (a1 : Nat)
    (out : casper_wmi_args) (h : wdev.block_set log (casper_read_input a1) = false) :
    casper_query wdev log a1 out =
      (- EIO, out, log ++ [wmi_call.block_set (casper_read_input a1)]) := by
  unfold casper_query
  unfold casper_read_input at h ⊢
  simp only [sizeof_casper_wmi_args_eq, CASPER_READ]
  norm_num at h ⊢
  simp [h]

/-- Unfolding of casper_query when phase 1 succeeds. -/
theorem casper_query_set_ok (wdev : wmi_device) (log : List wmi_call) (a1 : Nat)
    (out : casper_wmi_args) (h : wdev.block_set log (casper_read_input a1) = true) :
    casper_query wdev log a1 out =
      match wdev.block_query (log ++ [wmi_call.block_set (casper_read_input a1)]) with
      | none => (- EIO, out,
          log ++ [wmi_call.block_set (casper_read_input a1), wmi_call.block_query])
      | some (acpi_object.buffer p) =>
        if p.length = 32 then
          (0, memcpy_casper_wmi_args p,
            log ++ [wmi_call.block_set (casper_read_input a1), wmi_call.block_query])
        else (- EIO, out,
          log ++ [wmi_call.block_set (casper_read_input a1), wmi_call.block_query])
      | some _ => (-EINVAL, out,
          log ++ [wmi_call.block_set (casper_read_input a1), wmi_call.block_query]) := by
  unfold casper_query
  unfold casper_read_input at h ⊢
  simp only [sizeof_casper_wmi_args_eq, CASPER_READ]
  norm_num at h ⊢
  simp only [h]
  cases hq : wdev.block_query _ with
  | none => simp
  | some obj =>
    cases obj <;>
      simp [acpi_object.type, acpi_object.buffer_length, acpi_object.buffer_pointer,
        ACPI_TYPE_BUFFER, ACPI_TYPE_INTEGER, ACPI_TYPE_STRING, ACPI_TYPE_PACKAGE]

/-- C4: if the set call of phase 1 fails, casper_query returns - EIO, leaves the
output record as it was, and the only transport call it has made is that one
set: no get follows. -/
theorem casper_query_phase1_fault (wdev : wmi_device) (log : List wmi_call) (a1 : Nat)
    (out : casper_wmi_args) (h : wdev.block_set log (casper_read_input a1) = false) :
    casper_query wdev log a1 out =
        (- EIO, out, log ++ [wmi_call.block_set (casper_read_input a1)]) ∧
      ((casper_query wdev log a1 out).2.2.drop log.length).count wmi_call.block_query = 0 ∧
      ((casper_query wdev log a1 out).2.2.drop log.length).length = 1 := by
  rw [casper_query_set_failed wdev log a1 out h]
  simp

/-- The faulty device: the query returns -EIO after its single set call. -/
theorem casper_query_phase1_fault_witness :
    wmi_device_faulty.block_set [] (casper_read_input CASPER_POWERPLAN) = false ∧
    casper_query wmi_device_faulty [] CASPER_POWERPLAN {} =
      (- EIO, {}, [wmi_call.block_set (casper_read_input CASPER_POWERPLAN)]) :=
  ⟨rfl, (casper_query_phase1_fault wmi_device_faulty [] CASPER_POWERPLAN {} rfl).1⟩


/-- C3 as stated fails: a 31-byte response makes casper_query return - EIO, the
very value it returns when the set call or the get call of the transport fails,
so the caller cannot tell the wrong-size error from a transport failure. -/
theorem casper_query_short_response_code :
    (casper_query (wmi_device_answering (some (acpi_object.buffer (List.replicate 31 0)))) []
        CASPER_GET_HARDWAREINFO {}).1 = - EIO ∧
    (casper_query (wmi_device_answering (some (acpi_object.buffer (List.replicate 31 0)))) []
        CASPER_GET_HARDWAREINFO {}).1 =
      (casper_query wmi_device_faulty [] CASPER_GET_HARDWAREINFO {}).1 ∧
    (casper_query (wmi_device_answering (some (acpi_object.buffer (List.replicate 31 0)))) []
        CASPER_GET_HARDWAREINFO {}).1 =
      (casper_query (wmi_device_answering none) [] CASPER_GET_HARDWAREINFO {}).1 := by
  decide

/-- C3 amended: when phase 1 succeeds and the get returns a buffer whose length
is not 32 (the size of the record, 2+2+7*4), casper_query returns - EIO after
one set and one get and leaves the output record exactly as it was; - EIO is
also what every transport failure yields, and only it differs from the -EINVAL
of a non-buffer response. -/
theorem casper_query_wrong_size (wdev : wmi_device) (log : List wmi_call) (a1 : Nat)
    (out : casper_wmi_args) (p : List Nat)
    (h1 : wdev.block_set log (casper_read_input a1) = true)
    (h2 : wdev.block_query (log ++ [wmi_call.block_set (casper_read_input a1)])
      = some (acpi_object.buffer p))
    (hlen : p.length ≠ 32) :
    casper_query wdev log a1 out =
        (- EIO, out, log ++ [wmi_call.block_set (casper_read_input a1), wmi_call.block_query]) ∧
      sizeof_casper_wmi_args = 2 + 2 + 7 * 4 ∧ sizeof_casper_wmi_args = 32 ∧
      (∀ (wdev2 : wmi_device) (log2 : List wmi_call) (out2 : casper_wmi_args),
        wdev2.block_set log2 (casper_read_input a1) = false →
        (casper_query wdev2 log2 a1 out2).1 = (casper_query wdev log a1 out).1) ∧
      (∀ (wdev2 : wmi_device) (log2 : List wmi_call) (out2 : casper_wmi_args),
        wdev2.block_set log2 (casper_read_input a1) = true →
        wdev2.block_query (log2 ++ [wmi_call.block_set (casper_read_input a1)]) = none →
        (casper_query wdev2 log2 a1 out2).1 = (casper_query wdev log a1 out).1) ∧
      (casper_query wdev log a1 out).1 ≠ -EINVAL := by
  have hq : casper_query wdev log a1 out =
      (- EIO, out, log ++ [wmi_call.block_set (casper_read_input a1), wmi_call.block_query]) := by
    rw [casper_query_set_ok wdev log a1 out h1, h2]
    simp [hlen]
  refine ⟨hq, rfl, by decide, ?_, ?_, ?_⟩
  · intro wdev2 log2 out2 hf
    rw [casper_query_set_failed wdev2 log2 a1 out2 hf, hq]
  · intro wdev2 log2 out2 hs hn
    rw [casper_query_set_ok wdev2 log2 a1 out2 hs, hn, hq]
  · rw [hq]
    show - EIO ≠ -EINVAL
    decide

/-- A 33-byte response: -EIO, and the caller record keeps its a2 = 9. -/
theorem casper_query_wrong_size_witness :
    casper_query (wmi_device_answering (some (acpi_object.buffer (List.replicate 33 7)))) []
        CASPER_POWERPLAN { a2 := 9 } =
      (- EIO, { a2 := 9 },
        [wmi_call.block_set (casper_read_input CASPER_POWERPLAN), wmi_call.block_query]) :=
  (casper_query_wrong_size (wmi_device_answering (some (acpi_object.buffer (List.replicate 33 7))))
    [] CASPER_POWERPLAN { a2 := 9 } (List.replicate 33 7) rfl rfl (by decide)).1

/-! ## LED zone controller -/

theorem keyboard_zone_name_ne (z : Nat) (hz : z < 3) :
    zone_names.getD z "" ≠ zone_names.getD 3 "" := by
  have h : z = 0 ∨ z = 1 ∨ z = 2 := by omega
  rcases h with h | h | h <;> subst h <;> decide

/-- Unfolding of get_casper_brightness for a keyboard zone. -/
theorem get_casper_brightness_keyboard (drv : casper_drv) (log : List wmi_call)
    (led_cdev : led_classdev) (z : Nat) (hz : z < 3)
    (hname : led_cdev.name = zone_names.getD z "") :
    get_casper_brightness drv log led_cdev =
      ((casper_query drv.wdev log CASPER_GET_HARDWAREINFO {}).2.1.a6,
       (casper_query drv.wdev log CASPER_GET_HARDWAREINFO {}).2.2) := by
  unfold get_casper_brightness
  simp only [hname]
  rw [if_neg (keyboard_zone_name_ne z hz)]

/-- C5: for a keyboard zone (0..2) get_casper_brightness returns a plain
number: field a6 of the response (bytes 20..23) when the query succeeds, and 0
on each failure path of the query (phase-1 fault, phase-2 fault, non-buffer
response, wrong-length response), since the query then leaves the zeroed
record untouched. -/
theorem get_casper_brightness_swallows (drv : casper_drv) (log : List wmi_call)
    (led_cdev : led_classdev) (z : Nat) (hz : z < 3)
    (hname : led_cdev.name = zone_names.getD z "") :
    ((casper_query drv.wdev log CASPER_GET_HARDWAREINFO {}).1 = 0 →
      (get_casper_brightness drv log led_cdev).1 =
        (casper_query drv.wdev log CASPER_GET_HARDWAREINFO {}).2.1.a6) ∧
    ((casper_query drv.wdev log CASPER_GET_HARDWAREINFO {}).1 ≠ 0 →
      (get_casper_brightness drv log led_cdev).1 = 0) ∧
    (drv.wdev.block_set log (casper_read_input CASPER_GET_HARDWAREINFO) = false →
      (get_casper_brightness drv log led_cdev).1 = 0) ∧
    (drv.wdev.block_set log (casper_read_input CASPER_GET_HARDWAREINFO) = true →
      ∀ obj, drv.wdev.block_query
          (log ++ [wmi_call.block_set (casper_read_input CASPER_GET_HARDWAREINFO)]) = obj →
        (obj = none → (get_casper_brightness drv log led_cdev).1 = 0) ∧
        (∀ o, obj = some o → o.type ≠ ACPI_TYPE_BUFFER →
          (get_casper_brightness drv log led_cdev).1 = 0) ∧
        (∀ p, obj = some (acpi_object.buffer p) → p.length ≠ 32 →
          (get_casper_brightness drv log led_cdev).1 = 0) ∧
        (∀ p, obj = some (acpi_object.buffer p) → p.length = 32 →
          (get_casper_brightness drv log led_cdev).1 = read_u32 p 20)) := by
  rw [get_casper_brightness_keyboard drv log led_cdev z hz hname]
  by_cases hs : drv.wdev.block_set log (casper_read_input CASPER_GET_HARDWAREINFO) = true
  · rw [casper_query_set_ok drv.wdev log CASPER_GET_HARDWAREINFO {} hs]
    refine ⟨?_, ?_, ?_, ?_⟩
    · intro _; rfl
    · cases hq : drv.wdev.block_query _ with
      | none => intro _; rfl
      | some o =>
        cases o with
        | buffer p =>
          by_cases hl : p.length = 32
          · simp [hl]
          · simp [hl]
        | _ => intro _; rfl
    · intro hf; rw [hs] at hf; cases hf
    · intro _ obj hobj
      rw [hobj]
      refine ⟨?_, ?_, ?_, ?_⟩
      · intro h; subst h; rfl
      · intro o h ht; subst h
        cases o with
        | buffer p => exact absurd rfl ht
        | _ => rfl
      · intro p h hl; subst h; simp [hl]
      · intro p h hl; subst h; simp [hl, memcpy_casper_wmi_args]
  · have hf : drv.wdev.block_set log (casper_read_input CASPER_GET_HARDWAREINFO) = false := by
      simpa using hs
    rw [casper_query_set_failed drv.wdev log CASPER_GET_HARDWAREINFO {} hf]
    refine ⟨?_, ?_, ?_, ?_⟩
    · intro _; rfl
    · intro _; rfl
    · intro _; rfl
    · intro h; exact absurd h hs

/-- Zone 0 on the faulty device reads 0; zone 1 reads a6 = 2 from a good response. -/
theorem get_casper_brightness_swallows_witness :
    (get_casper_brightness (casper_drv_bound wmi_device_faulty {}) []
        { name := "casper:rgb:kbd_zoned_backlight-right" }).1 = 0 ∧
    (get_casper_brightness
        (casper_drv_bound (wmi_device_answering
          (some (acpi_object.buffer (casper_wmi_args.wire { a6 := 2 })))) {}) []
        { name := "casper:rgb:kbd_zoned_backlight-middle" }).1 = 2 :=
  ⟨(get_casper_brightness_swallows (casper_drv_bound wmi_device_faulty {}) []
      { name := "casper:rgb:kbd_zoned_backlight-right" } 0 (by decide) rfl).2.2.1 rfl,
   ((((get_casper_brightness_swallows
      (casper_drv_bound (wmi_device_answering
        (some (acpi_object.buffer (casper_wmi_args.wire { a6 := 2 })))) {}) []
      { name := "casper:rgb:kbd_zoned_backlight-middle" } 1 (by decide) rfl).2.2.2 rfl
        _ rfl).2.2.2 _ rfl (by decide)).trans (by decide))⟩


theorem find_zone_zone_names (z : Nat) (hz : z < 4) :
    find_zone (zone_names.getD z "") = some z := by
  have h : z = 0 ∨ z = 1 ∨ z = 2 ∨ z = 3 := by omega
  rcases h with h | h | h | h <;> subst h <;> decide

theorem zone_code_eq (z : Nat) (hz : z < 4) :
    (if z = 3 then CASPER_CORNER_LEDS else (z + CASPER_KEYBOARD_LED_1) % 2 ^ 8) % 256
      = spec_hardware_zone_code z := by
  have h : z = 0 ∨ z = 1 ∨ z = 2 ∨ z = 3 := by omega
  rcases h with h | h | h | h <;> subst h <;> decide

theorem led_data_lt (z : casper_fourzone_led) (brightness mode : Nat) :
    led_data z brightness mode < 4294967296 := by
  rw [led_data_eq]
  omega

/-- Unfolding of set_casper_brightness for a registered zone: after whatever
the brightness re-read did, exactly one LED_SET write to the zone's sub-id. -/
theorem set_casper_brightness_eq (drv : casper_drv) (log : List wmi_call)
    (led_cdev : led_classdev) (brightness z : Nat) (hz : z < 4)
    (hname : led_cdev.name = zone_names.getD z "") :
    set_casper_brightness drv log led_cdev brightness =
      some ((effective_brightness drv log z brightness).2 ++
        [wmi_call.block_set (casper_write_input 0x0100 (spec_hardware_zone_code z)
          (led_data (drv.led z) (effective_brightness drv log z brightness).1 LED_NORMAL))]) := by
  unfold set_casper_brightness
  rw [hname, find_zone_zone_names z hz]
  simp only
  rw [casper_set_eq, zone_code_eq z hz, Nat.mod_eq_of_lt (led_data_lt _ _ _)]
  rfl

theorem pack_or_eq (c r g b : Nat) (hr : r ≤ 255) (hg : g ≤ 255) (hb : b ≤ 255) :
    (c <<< 24) ||| (r <<< 16) ||| (g <<< 8) ||| b
      = 16777216 * c + 65536 * r + 256 * g + b := by
  simp only [Nat.shiftLeft_eq]
  have e1 : c * 2 ^ 24 ||| r * 2 ^ 16 = 2 ^ 16 * (256 * c + r) := by
    have := Nat.mul_add_lt_is_or (by omega : r * 2 ^ 16 < 2 ^ 24) c
    rw [Nat.mul_comm c (2 ^ 24)]
    omega
  have e2 : 2 ^ 16 * (256 * c + r) ||| g * 2 ^ 8 = 2 ^ 8 * (65536 * c + 256 * r + g) := by
    have := Nat.mul_add_lt_is_or (by omega : g * 2 ^ 8 < 2 ^ 16) (256 * c + r)
    omega
  rw [e1, e2, ← Nat.mul_add_lt_is_or (by omega : b < 2 ^ 8)]
  omega

/-- C6: for a zone z in 0..3 with cached intensities r, g, b at most 255 and a
level in 0..2 other than the cached brightness, set_casper_brightness makes no
query and exactly one channel call, a set of the WRITE record with sub-command
LED_SET, the zone's own sub-id (3, 4, 5 or 7, never the bulk id 6) and payload
((0x10 | level) << 24) | (r << 16) | (g << 8) | b. -/
theorem set_casper_brightness_write (drv : casper_drv) (log : List wmi_call)
    (z level r g b : Nat) (hz : z < 4)
    (hname : (drv.led z).led_cdev.name = zone_names.getD z "")
    (hr : (drv.led z).intensity 0 = r) (hg : (drv.led z).intensity 1 = g)
    (hb : (drv.led z).intensity 2 = b)
    (hr255 : r ≤ 255) (hg255 : g ≤ 255) (hb255 : b ≤ 255)
    (hlevel : level ≤ 2) (hne : level ≠ (drv.led z).led_cdev.brightness) :
    set_casper_brightness drv log (drv.led z).led_cdev level =
        some (log ++ [wmi_call.block_set
          { length := 32,
            pointer := { a0 := 0xfb00, a1 := 0x0100, a2 := spec_hardware_zone_code z,
                         a3 := ((0x10 ||| level) <<< 24) ||| (r <<< 16) ||| (g <<< 8) ||| b } }]) ∧
      spec_hardware_zone_code z ≠ 0x06 ∧
      spec_hardware_zone_code z = (if z = 3 then CASPER_CORNER_LEDS else z + CASPER_KEYBOARD_LED_1) := by
  refine ⟨?_, ?_, ?_⟩
  · rw [set_casper_brightness_eq drv log _ level z hz hname]
    have he : effective_brightness drv log z level = (level, log) := by
      unfold effective_brightness
      rw [if_neg hne]
    rw [he]
    simp only
    rw [led_data_eq, get_zone_color_eq, hr, hg, hb, pack_or_eq _ r g b hr255 hg255 hb255]
    have hl : level = 0 ∨ level = 1 ∨ level = 2 := by omega
    have hm : (level ||| LED_NORMAL) % 256 = 0x10 ||| level := by
      rcases hl with h | h | h <;> subst h <;> decide
    rw [hm]
    unfold casper_write_input
    congr 6
    omega
  · have h : z = 0 ∨ z = 1 ∨ z = 2 ∨ z = 3 := by omega
    rcases h with h | h | h | h <;> subst h <;> decide
  · have h : z = 0 ∨ z = 1 ∨ z = 2 ∨ z = 3 := by omega
    rcases h with h | h | h | h <;> subst h <;> decide


/-- The end-to-end scenario: zone 1, colour (255, 0, 0), cached brightness 0,
level 1 gives target 0x04 and payload 0x11FF0000. -/
theorem set_casper_brightness_write_witness :
    set_casper_brightness (casper_drv_colored (wmi_device_answering none) gen_newer_than_11 1 255 0 0)
        [] ((casper_drv_colored (wmi_device_answering none) gen_newer_than_11 1 255 0 0).led 1).led_cdev 1
      = some [wmi_call.block_set (casper_write_input 0x0100 0x04 0x11FF0000)] :=
  (set_casper_brightness_write
    (casper_drv_colored (wmi_device_answering none) gen_newer_than_11 1 255 0 0) [] 1 1 255 0 0
    (by decide) rfl rfl rfl rfl (by decide) (by decide) (by decide) (by decide) (by decide)).1

/-- C7 as stated fails: on the freshly bound driver (cached brightness 0,
white), a request for level 0x20 on zone 0 writes payload 0x30FFFFFF, whose
alpha high nibble is 0x30 (FADE), not 0x10; and a request for the cached level
0 with hardware reporting a6 = 0x20 writes the same payload. -/
theorem set_casper_brightness_mode_not_forced :
    set_casper_brightness (casper_drv_bound (wmi_device_answering none) gen_newer_than_11) []
        ((casper_drv_bound (wmi_device_answering none) gen_newer_than_11).led 0).led_cdev 0x20
      = some [wmi_call.block_set (casper_write_input 0x0100 0x03 0x30FFFFFF)] ∧
    set_casper_brightness
        (casper_drv_bound (wmi_device_answering
          (some (acpi_object.buffer (casper_wmi_args.wire { a6 := 0x20 })))) gen_newer_than_11) []
        ((casper_drv_bound (wmi_device_answering
          (some (acpi_object.buffer (casper_wmi_args.wire { a6 := 0x20 })))) gen_newer_than_11).led 0).led_cdev 0
      = some [wmi_call.block_set (casper_read_input CASPER_GET_HARDWAREINFO),
              wmi_call.block_query,
              wmi_call.block_set (casper_write_input 0x0100 0x03 0x30FFFFFF)] ∧
    (0x30FFFFFF >>> 24) &&& 0xF0 = 0x30 ∧ (0x30FFFFFF >>> 24) &&& 0xF0 ≠ 0x10 := by
  decide

theorem or_mod_256 (e m : Nat) : (e ||| m) % 256 = (e % 256) ||| (m % 256) := by
  have h : (256 : Nat) = 2 ^ 8 := by norm_num
  rw [h, ← Nat.and_pow_two_sub_one_eq_mod, ← Nat.and_pow_two_sub_one_eq_mod,
    ← Nat.and_pow_two_sub_one_eq_mod, Nat.and_distrib_right]

theorem and_E0_mod_256 (e : Nat) : e &&& 0xE0 = (e % 256) &&& 0xE0 := by
  have h : (256 : Nat) = 2 ^ 8 := by norm_num
  have h2 : (0xE0 : Nat) = (2 ^ 8 - 1) &&& 0xE0 := by decide
  rw [h, ← Nat.and_pow_two_sub_one_eq_mod, Nat.and_assoc, ← h2]

theorem alpha_nibble_iff (e : Nat) :
    ((e ||| LED_NORMAL) % 256) &&& 0xF0 = 0x10 ↔ e &&& 0xE0 = 0 := by
  rw [or_mod_256, and_E0_mod_256 e]
  exact byte_nibble_iff (e % 256) (Nat.mod_lt _ (by decide))

/-- C7 amended: for every registered zone, cached state and requested level,
set_casper_brightness ends with one LED_SET write whose payload has alpha byte
(eff | 0x10) & 0xFF, where eff is the level it encodes (the requested level when
it differs from the cached one, else the value get_casper_brightness returns).
The high nibble of the alpha byte is 0x1 exactly when eff & 0xE0 = 0, which
holds for every eff up to 31 and so for the advertised levels 0..2. -/
theorem set_casper_brightness_alpha (drv : casper_drv) (log : List wmi_call)
    (z level : Nat) (hz : z < 4)
    (hname : (drv.led z).led_cdev.name = zone_names.getD z "") :
    ∃ payload : Nat,
      set_casper_brightness drv log (drv.led z).led_cdev level =
        some ((effective_brightness drv log z level).2 ++
          [wmi_call.block_set (casper_write_input 0x0100 (spec_hardware_zone_code z) payload)]) ∧
      payload >>> 24 = ((effective_brightness drv log z level).1 ||| 0x10) % 256 ∧
      ((payload >>> 24) &&& 0xF0 = 0x10 ↔
        (effective_brightness drv log z level).1 &&& 0xE0 = 0) ∧
      ((effective_brightness drv log z level).1 ≤ 31 → (payload >>> 24) &&& 0xF0 = 0x10) ∧
      (level ≠ (drv.led z).led_cdev.brightness →
        effective_brightness drv log z level = (level, log)) ∧
      (level = (drv.led z).led_cdev.brightness →
        effective_brightness drv log z level =
          get_casper_brightness drv log (drv.led z).led_cdev) := by
  refine ⟨led_data (drv.led z) (effective_brightness drv log z level).1 LED_NORMAL,
    set_casper_brightness_eq drv log _ level z hz hname, ?_, ?_, ?_, ?_, ?_⟩
  · rw [led_data_eq, Nat.shiftRight_eq_div_pow]
    show _ = ((effective_brightness drv log z level).1 ||| LED_NORMAL) % 256
    omega
  · have h : led_data (drv.led z) (effective_brightness drv log z level).1 LED_NORMAL >>> 24
        = ((effective_brightness drv log z level).1 ||| LED_NORMAL) % 256 := by
      rw [led_data_eq, Nat.shiftRight_eq_div_pow]
      omega
    rw [h]
    exact alpha_nibble_iff _
  · intro h31
    have h : led_data (drv.led z) (effective_brightness drv log z level).1 LED_NORMAL >>> 24
        = ((effective_brightness drv log z level).1 ||| LED_NORMAL) % 256 := by
      rw [led_data_eq, Nat.shiftRight_eq_div_pow]
      omega
    rw [h, alpha_nibble_iff, and_E0_mod_256]
    generalize (effective_brightness drv log z level).1 = e at h31
    have : e % 256 = e := Nat.mod_eq_of_lt (by omega)
    rw [this]
    revert e
    decide
  · intro hne
    unfold effective_brightness
    rw [if_neg hne]
  · intro he
    unfold effective_brightness
    rw [if_pos he]

/-- Corner zone of the freshly bound driver at level 2: alpha byte 0x12. -/
theorem set_casper_brightness_alpha_witness :
    ∃ payload : Nat,
      set_casper_brightness (casper_drv_bound (wmi_device_answering none) gen_newer_than_11) []
          ((casper_drv_bound (wmi_device_answering none) gen_newer_than_11).led 3).led_cdev 2 =
        some ([] ++ [wmi_call.block_set (casper_write_input 0x0100 0x07 payload)]) ∧
      payload >>> 24 = 0x12 :=
  (set_casper_brightness_alpha (casper_drv_bound (wmi_device_answering none) gen_newer_than_11)
    [] 3 2 (by decide) rfl).imp (fun _ h => ⟨h.1, h.2.1⟩)


theorem field_get_byte (w k : Nat) : (w &&& (255 <<< k)) >>> k = w / 2 ^ k % 256 := by
  rw [← Nat.shiftRight_eq_div_pow]
  apply Nat.eq_of_testBit_eq
  intro i
  have h255 : (255 : Nat) = 2 ^ 8 - 1 := by norm_num
  have h256 : (256 : Nat) = 2 ^ 8 := by norm_num
  rw [h255, h256]
  simp only [Nat.testBit_and, Nat.testBit_shiftLeft, Nat.testBit_shiftRight,
    Nat.testBit_mod_two_pow, Nat.testBit_two_pow_sub_one]
  by_cases h2 : i < 8 <;> simp [h2, Bool.and_comm]

theorem decode_led_data_eq (w : Nat) :
    decode_led_data w =
      (w / 65536 % 256, w / 256 % 256, w % 256,
        (w / 16777216 % 256) &&& 0x0F, (w / 16777216 % 256) &&& 0xF0) := by
  unfold decode_led_data FIELD_GET
  simp only [CASPER_LED_ALPHA_eq, CASPER_LED_RED_eq, CASPER_LED_GREEN_eq, CASPER_LED_BLUE_eq,
    bf_shf_ALPHA, bf_shf_RED, bf_shf_GREEN, bf_shf_BLUE, field_get_byte]
  norm_num

theorem alpha_split (brightness mode : Nat) (hbr : brightness ≤ 2)
    (hm : mode ∈ casper_led_modes) :
    ((brightness ||| mode) % 256) &&& 0x0F = brightness ∧
    ((brightness ||| mode) % 256) &&& 0xF0 = mode := by
  have hb : brightness = 0 ∨ brightness = 1 ∨ brightness = 2 := by omega
  simp only [casper_led_modes, List.mem_cons, List.mem_singleton, List.not_mem_nil,
    or_false] at hm
  rcases hb with h | h | h <;> subst h <;>
    rcases hm with h | h | h | h | h | h <;> subst h <;> decide

theorem pack_or_sum (c r g b : Nat) (hr : r < 256) (hg : g < 256) (hb : b < 256) :
    2 ^ 24 * c ||| 2 ^ 16 * r ||| 2 ^ 8 * g ||| b
      = 16777216 * c + 65536 * r + 256 * g + b := by
  have e1 : 2 ^ 24 * c ||| 2 ^ 16 * r = 2 ^ 16 * (256 * c + r) := by
    have := Nat.mul_add_lt_is_or (by omega : 2 ^ 16 * r < 2 ^ 24) c
    omega
  have e2 : 2 ^ 16 * (256 * c + r) ||| 2 ^ 8 * g = 2 ^ 8 * (65536 * c + 256 * r + g) := by
    have := Nat.mul_add_lt_is_or (by omega : 2 ^ 8 * g < 2 ^ 16) (256 * c + r)
    omega
  rw [e1, e2, ← Nat.mul_add_lt_is_or (by omega : b < 2 ^ 8)]
  omega

/-- Decoding the packed word of a valid tuple gives the tuple back. -/
theorem decode_led_data_led_data (z : casper_fourzone_led) (brightness mode : Nat)
    (hr : z.intensity 0 ≤ 255) (hg : z.intensity 1 ≤ 255) (hb : z.intensity 2 ≤ 255)
    (hbr : brightness ≤ 2) (hm : mode ∈ casper_led_modes) :
    decode_led_data (led_data z brightness mode) =
      (z.intensity 0, z.intensity 1, z.intensity 2, brightness, mode) := by
  rw [decode_led_data_eq, led_data_eq, get_zone_color_eq]
  obtain ⟨h1, h2⟩ := alpha_split brightness mode hbr hm
  have ha := Nat.mod_lt (brightness ||| mode) (show 0 < 256 by decide)
  generalize (brightness ||| mode) % 256 = a at *
  have e1 : (16777216 * a + (65536 * (z.intensity 0 % 256) + 256 * (z.intensity 1 % 256)
      + z.intensity 2 % 256) % 16777216) / 65536 % 256 = z.intensity 0 := by omega
  have e2 : (16777216 * a + (65536 * (z.intensity 0 % 256) + 256 * (z.intensity 1 % 256)
      + z.intensity 2 % 256) % 16777216) / 256 % 256 = z.intensity 1 := by omega
  have e3 : (16777216 * a + (65536 * (z.intensity 0 % 256) + 256 * (z.intensity 1 % 256)
      + z.intensity 2 % 256) % 16777216) % 256 = z.intensity 2 := by omega
  have e4 : (16777216 * a + (65536 * (z.intensity 0 % 256) + 256 * (z.intensity 1 % 256)
      + z.intensity 2 % 256) % 16777216) / 16777216 % 256 = a := by omega
  rw [e1, e2, e3, e4, h1, h2]

/-- C9: for red, green, blue in 0..255, brightness in 0..2 and a mode of enum
casper_led_mode, extracting the fields of the packed colour word with the
packing masks returns the tuple that was packed; hence two valid tuples with
the same packed word are equal. -/
theorem led_data_roundtrip (z : casper_fourzone_led) (brightness mode : Nat)
    (hr : z.intensity 0 ≤ 255) (hg : z.intensity 1 ≤ 255) (hb : z.intensity 2 ≤ 255)
    (hbr : brightness ≤ 2) (hm : mode ∈ casper_led_modes) :
    decode_led_data (led_data z brightness mode) =
        (z.intensity 0, z.intensity 1, z.intensity 2, brightness, mode) ∧
      led_data z brightness mode =
        (FIELD_PREP CASPER_LED_ALPHA (mode ||| brightness) |||
          FIELD_PREP CASPER_LED_RED (z.intensity 0) |||
          FIELD_PREP CASPER_LED_GREEN (z.intensity 1) |||
          FIELD_PREP CASPER_LED_BLUE (z.intensity 2)) ∧
      ∀ (z2 : casper_fourzone_led) (brightness2 mode2 : Nat),
        z2.intensity 0 ≤ 255 → z2.intensity 1 ≤ 255 → z2.intensity 2 ≤ 255 →
        brightness2 ≤ 2 → mode2 ∈ casper_led_modes →
        led_data z brightness mode = led_data z2 brightness2 mode2 →
        (z.intensity 0, z.intensity 1, z.intensity 2, brightness, mode) =
          (z2.intensity 0, z2.intensity 1, z2.intensity 2, brightness2, mode2) := by
  refine ⟨decode_led_data_led_data z brightness mode hr hg hb hbr hm, ?_, ?_⟩
  · rw [led_data_eq, get_zone_color_eq, FIELD_PREP_ALPHA, FIELD_PREP_RED, FIELD_PREP_GREEN,
      FIELD_PREP_BLUE, Nat.or_comm mode brightness]
    rw [pack_or_sum _ _ _ _ (Nat.mod_lt _ (by decide)) (Nat.mod_lt _ (by decide))
      (Nat.mod_lt _ (by decide))]
    omega
  · intro z2 brightness2 mode2 hr2 hg2 hb2 hbr2 hm2 heq
    rw [← decode_led_data_led_data z brightness mode hr hg hb hbr hm,
      ← decode_led_data_led_data z2 brightness2 mode2 hr2 hg2 hb2 hbr2 hm2, heq]

/-- The tuple (255, 7, 0, brightness 1, FADE) survives packing and decoding. -/
theorem led_data_roundtrip_witness :
    decode_led_data
        (led_data { subleds := [{ intensity := 255 }, { intensity := 7 }, { intensity := 0 }] }
          1 LED_FADE) = (255, 7, 0, 1, 0x30) :=
  (led_data_roundtrip { subleds := [{ intensity := 255 }, { intensity := 7 }, { intensity := 0 }] }
    1 LED_FADE (by decide) (by decide) (by decide) (by decide) (by decide)).1


/-! ## Fan sensor decoder -/

theorem be16_to_cpu_at_eq (x : Nat) : be16_to_cpu_at x = 256 * (x % 256) + x / 256 % 256 := by
  simp [be16_to_cpu_at, u32_bytes]

theorem swap16_eq (x : Nat) : swap16 x = 256 * (x % 256) + x / 256 % 256 := by
  unfold swap16
  have h : (0xff : Nat) = 2 ^ 8 - 1 := by norm_num
  rw [h, Nat.and_pow_two_sub_one_eq_mod, Nat.and_pow_two_sub_one_eq_mod, Nat.shiftLeft_eq,
    Nat.shiftRight_eq_div_pow, Nat.mul_comm,
    ← Nat.mul_add_lt_is_or (Nat.mod_lt _ (by decide))]

/-- C8: after a successful hardware-info query, casper_wmi_hwmon_read reports,
with big_endian_fans set, the byte swap of the low 16 bits of a4 for the CPU
channel and of a5 for the GPU channel (below 65536, the upper 16 bits play no
part), and with big_endian_fans clear the full a5 for both channels. -/
theorem casper_wmi_hwmon_read_fans (drv : casper_drv) (log : List wmi_call) (val : Int)
    (out : casper_wmi_args) (log2 : List wmi_call)
    (hq : casper_query drv.wdev log CASPER_GET_HARDWAREINFO {} = (0, out, log2)) :
    (drv.quirk_applied.big_endian_fans = true →
      casper_wmi_hwmon_read drv log CASPER_FAN_CPU val = (0, ((swap16 out.a4 : Nat) : Int), log2) ∧
      casper_wmi_hwmon_read drv log CASPER_FAN_GPU val = (0, ((swap16 out.a5 : Nat) : Int), log2) ∧
      swap16 out.a4 < 65536 ∧ swap16 out.a5 < 65536 ∧
      swap16 out.a4 = swap16 (out.a4 % 65536) ∧ swap16 out.a5 = swap16 (out.a5 % 65536)) ∧
    (drv.quirk_applied.big_endian_fans = false →
      casper_wmi_hwmon_read drv log CASPER_FAN_CPU val = (0, ((out.a5 : Nat) : Int), log2) ∧
      casper_wmi_hwmon_read drv log CASPER_FAN_GPU val = (0, ((out.a5 : Nat) : Int), log2)) := by
  constructor
  · intro hbe
    refine ⟨?_, ?_, ?_, ?_, ?_, ?_⟩
    · simp [casper_wmi_hwmon_read, hq, hbe, CASPER_FAN_CPU, be16_to_cpu_at_eq, swap16_eq]
    · simp [casper_wmi_hwmon_read, hq, hbe, CASPER_FAN_CPU, CASPER_FAN_GPU, be16_to_cpu_at_eq,
        swap16_eq]
    · rw [swap16_eq]; omega
    · rw [swap16_eq]; omega
    · rw [swap16_eq, swap16_eq]; omega
    · rw [swap16_eq, swap16_eq]; omega
  · intro hle
    constructor
    · simp [casper_wmi_hwmon_read, hq, hle, CASPER_FAN_CPU]
    · simp [casper_wmi_hwmon_read, hq, hle, CASPER_FAN_CPU, CASPER_FAN_GPU]

/-- The record a4 = 0x1234, a5 = 0x5678: 0x3412 and 0x7856 when big-endian,
0x5678 for both channels otherwise. -/
theorem casper_wmi_hwmon_read_fans_witness :
    (casper_wmi_hwmon_read
        (casper_drv_bound (wmi_device_answering (some (acpi_object.buffer
          (casper_wmi_args.wire { a4 := 0x1234, a5 := 0x5678 })))) gen_older_than_11)
        [] CASPER_FAN_CPU 0).2.1 = 0x3412 ∧
    (casper_wmi_hwmon_read
        (casper_drv_bound (wmi_device_answering (some (acpi_object.buffer
          (casper_wmi_args.wire { a4 := 0x1234, a5 := 0x5678 })))) gen_older_than_11)
        [] CASPER_FAN_GPU 0).2.1 = 0x7856 ∧
    (casper_wmi_hwmon_read
        (casper_drv_bound (wmi_device_answering (some (acpi_object.buffer
          (casper_wmi_args.wire { a4 := 0x1234, a5 := 0x5678 })))) gen_newer_than_11)
        [] CASPER_FAN_CPU 0).2.1 = 0x5678 ∧
    (casper_wmi_hwmon_read
        (casper_drv_bound (wmi_device_answering (some (acpi_object.buffer
          (casper_wmi_args.wire { a4 := 0x1234, a5 := 0x5678 })))) gen_newer_than_11)
        [] CASPER_FAN_GPU 0).2.1 = 0x5678 := by
  have hbe := (casper_wmi_hwmon_read_fans
    (casper_drv_bound (wmi_device_answering (some (acpi_object.buffer
      (casper_wmi_args.wire { a4 := 0x1234, a5 := 0x5678 })))) gen_older_than_11)
    [] 0 { a4 := 0x1234, a5 := 0x5678 }
    [wmi_call.block_set (casper_read_input CASPER_GET_HARDWAREINFO), wmi_call.block_query]
    (by decide)).1 rfl
  have hle := (casper_wmi_hwmon_read_fans
    (casper_drv_bound (wmi_device_answering (some (acpi_object.buffer
      (casper_wmi_args.wire { a4 := 0x1234, a5 := 0x5678 })))) gen_newer_than_11)
    [] 0 { a4 := 0x1234, a5 := 0x5678 }
    [wmi_call.block_set (casper_read_input CASPER_GET_HARDWAREINFO), wmi_call.block_query]
    (by decide)).2 rfl
  refine ⟨?_, ?_, ?_, ?_⟩
  · rw [hbe.1]; decide
  · rw [hbe.2.1]; decide
  · rw [hle.1]; decide
  · rw [hle.2]; decide


/-! ## Power profile mapper -/

/-- C1: in either scheme, for each hardware code c defined in it, a successful
POWERPLAN query with a2 = c makes casper_platform_profile_get return the
profile the mapping table pairs with c, and casper_platform_profile_set of that
profile makes one transport call, a set of the WRITE record with sub-command
POWERPLAN (0x0300), a2 = c and a3 = 0. -/
theorem casper_platform_profile_set_get (drv : casper_drv) (log log1 log2 : List wmi_call)
    (c profile0 : Nat) (out : casper_wmi_args)
    (hc : c ∈ defined_codes drv.quirk_applied.new_power_scheme)
    (hq : casper_query drv.wdev log CASPER_POWERPLAN {} = (0, out, log1))
    (ha2 : out.a2 = c) :
    ∃ p : Nat,
      spec_mapping_table drv.quirk_applied.new_power_scheme c = some p ∧
      casper_platform_profile_get drv log profile0 = (0, p, log1) ∧
      (casper_platform_profile_set drv log2 p).2 =
        log2 ++ [wmi_call.block_set
          { length := 32, pointer := { a0 := 0xfb00, a1 := 0x0300, a2 := c, a3 := 0 } }] ∧
      (casper_platform_profile_set drv log2 p).1 =
        (if drv.wdev.block_set log2
            { length := 32, pointer := { a0 := 0xfb00, a1 := 0x0300, a2 := c, a3 := 0 } }
          then 0 else - EIO) := by
  cases hn : drv.quirk_applied.new_power_scheme
  · rw [hn] at hc
    simp only [defined_codes, Bool.false_eq_true, if_false, List.mem_cons, List.mem_singleton,
      List.not_mem_nil, or_false] at hc
    rcases hc with h | h | h | h <;> subst h
    · refine ⟨PLATFORM_PROFILE_PERFORMANCE, rfl, ?_, ?_, ?_⟩
      · simp [casper_platform_profile_get, hq, hn, ha2, CASPER_HIGH_PERFORMANCE]
      · simp [casper_platform_profile_set, hn, casper_set_eq, casper_write_input,
          PLATFORM_PROFILE_PERFORMANCE, CASPER_POWERPLAN, CASPER_HIGH_PERFORMANCE]
      · simp [casper_platform_profile_set, hn, casper_set_eq, casper_write_input,
          PLATFORM_PROFILE_PERFORMANCE, CASPER_POWERPLAN, CASPER_HIGH_PERFORMANCE]
    · refine ⟨PLATFORM_PROFILE_BALANCED_PERFORMANCE, rfl, ?_, ?_, ?_⟩
      · simp [casper_platform_profile_get, hq, hn, ha2, CASPER_HIGH_PERFORMANCE, CASPER_GAMING]
      · simp [casper_platform_profile_set, hn, casper_set_eq, casper_write_input,
          PLATFORM_PROFILE_PERFORMANCE, PLATFORM_PROFILE_BALANCED_PERFORMANCE,
          CASPER_POWERPLAN, CASPER_GAMING]
      · simp [casper_platform_profile_set, hn, casper_set_eq, casper_write_input,
          PLATFORM_PROFILE_PERFORMANCE, PLATFORM_PROFILE_BALANCED_PERFORMANCE,
          CASPER_POWERPLAN, CASPER_GAMING]
    · refine ⟨PLATFORM_PROFILE_BALANCED, rfl, ?_, ?_, ?_⟩
      · simp [casper_platform_profile_get, hq, hn, ha2, CASPER_HIGH_PERFORMANCE, CASPER_GAMING,
          CASPER_TEXT_MODE]
      · simp [casper_platform_profile_set, hn, casper_set_eq, casper_write_input,
          PLATFORM_PROFILE_PERFORMANCE, PLATFORM_PROFILE_BALANCED_PERFORMANCE,
          PLATFORM_PROFILE_BALANCED, CASPER_POWERPLAN, CASPER_TEXT_MODE]
      · simp [casper_platform_profile_set, hn, casper_set_eq, casper_write_input,
          PLATFORM_PROFILE_PERFORMANCE, PLATFORM_PROFILE_BALANCED_PERFORMANCE,
          PLATFORM_PROFILE_BALANCED, CASPER_POWERPLAN, CASPER_TEXT_MODE]
    · refine ⟨PLATFORM_PROFILE_LOW_POWER, rfl, ?_, ?_, ?_⟩
      · simp [casper_platform_profile_get, hq, hn, ha2, CASPER_HIGH_PERFORMANCE, CASPER_GAMING,
          CASPER_TEXT_MODE, CASPER_POWERSAVE]
      · simp [casper_platform_profile_set, hn, casper_set_eq, casper_write_input,
          PLATFORM_PROFILE_PERFORMANCE, PLATFORM_PROFILE_BALANCED_PERFORMANCE,
          PLATFORM_PROFILE_BALANCED, PLATFORM_PROFILE_LOW_POWER, CASPER_POWERPLAN,
          CASPER_POWERSAVE]
      · simp [casper_platform_profile_set, hn, casper_set_eq, casper_write_input,
          PLATFORM_PROFILE_PERFORMANCE, PLATFORM_PROFILE_BALANCED_PERFORMANCE,
          PLATFORM_PROFILE_BALANCED, PLATFORM_PROFILE_LOW_POWER, CASPER_POWERPLAN,
          CASPER_POWERSAVE]
  · rw [hn] at hc
    simp only [defined_codes, if_true, List.mem_cons, List.mem_singleton,
      List.not_mem_nil, or_false] at hc
    rcases hc with h | h | h <;> subst h
    · refine ⟨PLATFORM_PROFILE_PERFORMANCE, rfl, ?_, ?_, ?_⟩
      · simp [casper_platform_profile_get, hq, hn, ha2, CASPER_NEW_HIGH_PERFORMANCE]
      · simp [casper_platform_profile_set, hn, casper_set_eq, casper_write_input,
          PLATFORM_PROFILE_PERFORMANCE, CASPER_POWERPLAN, CASPER_NEW_HIGH_PERFORMANCE]
      · simp [casper_platform_profile_set, hn, casper_set_eq, casper_write_input,
          PLATFORM_PROFILE_PERFORMANCE, CASPER_POWERPLAN, CASPER_NEW_HIGH_PERFORMANCE]
    · refine ⟨PLATFORM_PROFILE_BALANCED, rfl, ?_, ?_, ?_⟩
      · simp [casper_platform_profile_get, hq, hn, ha2, CASPER_NEW_HIGH_PERFORMANCE,
          CASPER_NEW_GAMING]
      · simp [casper_platform_profile_set, hn, casper_set_eq, casper_write_input,
          PLATFORM_PROFILE_PERFORMANCE, PLATFORM_PROFILE_BALANCED, CASPER_POWERPLAN,
          CASPER_NEW_GAMING]
      · simp [casper_platform_profile_set, hn, casper_set_eq, casper_write_input,
          PLATFORM_PROFILE_PERFORMANCE, PLATFORM_PROFILE_BALANCED, CASPER_POWERPLAN,
          CASPER_NEW_GAMING]
    · refine ⟨PLATFORM_PROFILE_LOW_POWER, rfl, ?_, ?_, ?_⟩
      · simp [casper_platform_profile_get, hq, hn, ha2, CASPER_NEW_HIGH_PERFORMANCE,
          CASPER_NEW_GAMING, CASPER_NEW_AUDIO]
      · simp [casper_platform_profile_set, hn, casper_set_eq, casper_write_input,
          PLATFORM_PROFILE_PERFORMANCE, PLATFORM_PROFILE_BALANCED, PLATFORM_PROFILE_LOW_POWER,
          CASPER_POWERPLAN, CASPER_NEW_AUDIO]
      · simp [casper_platform_profile_set, hn, casper_set_eq, casper_write_input,
          PLATFORM_PROFILE_PERFORMANCE, PLATFORM_PROFILE_BALANCED, PLATFORM_PROFILE_LOW_POWER,
          CASPER_POWERPLAN, CASPER_NEW_AUDIO]


/-- Old scheme, hardware code 2: BALANCED_PERFORMANCE, written back as code 2. -/
theorem casper_platform_profile_set_get_witness :
    ∃ p : Nat,
      spec_mapping_table false 2 = some p ∧
      casper_platform_profile_get
        (casper_drv_bound (wmi_device_answering (some (acpi_object.buffer
          (casper_wmi_args.wire { a2 := 2 })))) gen_older_than_11) [] 0 =
        (0, p, [wmi_call.block_set (casper_read_input CASPER_POWERPLAN), wmi_call.block_query]) ∧
      (casper_platform_profile_set
        (casper_drv_bound (wmi_device_answering (some (acpi_object.buffer
          (casper_wmi_args.wire { a2 := 2 })))) gen_older_than_11) [] p).2 =
        [wmi_call.block_set (casper_write_input 0x0300 2 0)] :=
  (casper_platform_profile_set_get
    (casper_drv_bound (wmi_device_answering (some (acpi_object.buffer
      (casper_wmi_args.wire { a2 := 2 })))) gen_older_than_11)
    [] [wmi_call.block_set (casper_read_input CASPER_POWERPLAN), wmi_call.block_query] []
    2 0 { a2 := 2 } (by decide) (by decide) rfl).imp (fun _ h => ⟨h.1, h.2.1, h.2.2.1⟩)

theorem choices_new_testBit (p : Nat) :
    Nat.testBit 41 p = decide (p = 0 ∨ p = 3 ∨ p = 5) := by
  by_cases h : p < 6
  · interval_cases p <;> decide
  · have h1 : (41 : Nat) < 2 ^ p :=
      Nat.lt_of_lt_of_le (by decide : (41 : Nat) < 2 ^ 6) (Nat.pow_le_pow_right (by decide) (by omega))
    rw [Nat.testBit_lt_two_pow h1]
    symm
    simp
    omega

theorem choices_old_testBit (p : Nat) :
    Nat.testBit 57 p = decide (p = 0 ∨ p = 3 ∨ p = 4 ∨ p = 5) := by
  by_cases h : p < 6
  · interval_cases p <;> decide
  · have h1 : (57 : Nat) < 2 ^ p :=
      Nat.lt_of_lt_of_le (by decide : (57 : Nat) < 2 ^ 6) (Nat.pow_le_pow_right (by decide) (by omega))
    rw [Nat.testBit_lt_two_pow h1]
    symm
    simp
    omega

/-- Whether a profile is in the choice set the probe callback advertises,
starting from an empty bitmap. -/
theorem test_bit_probe (drv : casper_drv) (p : Nat) :
    test_bit p (casper_platform_profile_probe drv 0).2 =
      decide (p = PLATFORM_PROFILE_LOW_POWER ∨ p = PLATFORM_PROFILE_BALANCED ∨
        (p = PLATFORM_PROFILE_BALANCED_PERFORMANCE ∧ drv.quirk_applied.new_power_scheme = false) ∨
        p = PLATFORM_PROFILE_PERFORMANCE) := by
  cases hn : drv.quirk_applied.new_power_scheme
  · have : (casper_platform_profile_probe drv 0).2 = 57 := by
      simp [casper_platform_profile_probe, hn, set_bit, PLATFORM_PROFILE_LOW_POWER,
        PLATFORM_PROFILE_BALANCED, PLATFORM_PROFILE_BALANCED_PERFORMANCE,
        PLATFORM_PROFILE_PERFORMANCE]
    rw [this, test_bit, choices_old_testBit]
    simp [PLATFORM_PROFILE_LOW_POWER,
        PLATFORM_PROFILE_BALANCED, PLATFORM_PROFILE_BALANCED_PERFORMANCE,
        PLATFORM_PROFILE_PERFORMANCE]
  · have : (casper_platform_profile_probe drv 0).2 = 41 := by
      simp [casper_platform_profile_probe, hn, set_bit, PLATFORM_PROFILE_LOW_POWER,
        PLATFORM_PROFILE_BALANCED, PLATFORM_PROFILE_BALANCED_PERFORMANCE,
        PLATFORM_PROFILE_PERFORMANCE]
    rw [this, test_bit, choices_new_testBit]
    simp [PLATFORM_PROFILE_LOW_POWER,
        PLATFORM_PROFILE_BALANCED, PLATFORM_PROFILE_BALANCED_PERFORMANCE,
        PLATFORM_PROFILE_PERFORMANCE]

/-- What casper_platform_profile_set does with an advertised and with an
unadvertised profile. -/
theorem casper_platform_profile_set_cases (drv : casper_drv) (log : List wmi_call) (p : Nat) :
    (test_bit p (casper_platform_profile_probe drv 0).2 = false ∧
      casper_platform_profile_set drv log p = (-EINVAL, log)) ∨
    (test_bit p (casper_platform_profile_probe drv 0).2 = true ∧
      ∃ c, c ∈ defined_codes drv.quirk_applied.new_power_scheme ∧
        casper_platform_profile_set drv log p =
          (if drv.wdev.block_set log (casper_write_input 0x0300 c 0) then 0 else - EIO,
           log ++ [wmi_call.block_set (casper_write_input 0x0300 c 0)])) := by
  rw [test_bit_probe]
  unfold casper_platform_profile_set
  simp only [casper_set_eq]
  cases hn : drv.quirk_applied.new_power_scheme
  · by_cases h5 : p = PLATFORM_PROFILE_PERFORMANCE
    · right; subst h5
      refine ⟨by decide, 1, by decide, ?_⟩
      simp [CASPER_POWERPLAN, CASPER_HIGH_PERFORMANCE]
    by_cases h4 : p = PLATFORM_PROFILE_BALANCED_PERFORMANCE
    · right; subst h4
      refine ⟨by decide, 2, by decide, ?_⟩
      simp [CASPER_POWERPLAN, CASPER_GAMING, PLATFORM_PROFILE_BALANCED_PERFORMANCE,
        PLATFORM_PROFILE_PERFORMANCE]
    by_cases h3 : p = PLATFORM_PROFILE_BALANCED
    · right; subst h3
      refine ⟨by decide, 3, by decide, ?_⟩
      simp [CASPER_POWERPLAN, CASPER_TEXT_MODE, PLATFORM_PROFILE_BALANCED_PERFORMANCE,
        PLATFORM_PROFILE_PERFORMANCE, PLATFORM_PROFILE_BALANCED]
    by_cases h0 : p = PLATFORM_PROFILE_LOW_POWER
    · right; subst h0
      refine ⟨by decide, 4, by decide, ?_⟩
      simp [CASPER_POWERPLAN, CASPER_POWERSAVE, PLATFORM_PROFILE_BALANCED_PERFORMANCE,
        PLATFORM_PROFILE_PERFORMANCE, PLATFORM_PROFILE_BALANCED, PLATFORM_PROFILE_LOW_POWER]
    left
    simp [h5, h4, h3, h0]
  · by_cases h5 : p = PLATFORM_PROFILE_PERFORMANCE
    · right; subst h5
      refine ⟨by decide, 0, by decide, ?_⟩
      simp [CASPER_POWERPLAN, CASPER_NEW_HIGH_PERFORMANCE]
    by_cases h3 : p = PLATFORM_PROFILE_BALANCED
    · right; subst h3
      refine ⟨by decide, 1, by decide, ?_⟩
      simp [CASPER_POWERPLAN, CASPER_NEW_GAMING,
        PLATFORM_PROFILE_PERFORMANCE, PLATFORM_PROFILE_BALANCED]
    by_cases h0 : p = PLATFORM_PROFILE_LOW_POWER
    · right; subst h0
      refine ⟨by decide, 2, by decide, ?_⟩
      simp [CASPER_POWERPLAN, CASPER_NEW_AUDIO,
        PLATFORM_PROFILE_PERFORMANCE, PLATFORM_PROFILE_BALANCED, PLATFORM_PROFILE_LOW_POWER]
    left
    simp [h5, h3, h0]


/-- C2: for every quirk profile and every profile option p,
casper_platform_profile_set returns -EINVAL without any transport call exactly
when p is not in the choice set casper_platform_profile_probe advertises; an
advertised p is forwarded as one POWERPLAN write.  BALANCED_PERFORMANCE is
unadvertised and rejected under the new scheme, advertised and forwarded (as
code 2) under the old one. -/
theorem casper_platform_profile_set_unsupported (drv : casper_drv) (log : List wmi_call)
    (p : Nat) :
    (casper_platform_profile_set drv log p = (-EINVAL, log) ↔
      test_bit p (casper_platform_profile_probe drv 0).2 = false) ∧
    ((casper_platform_profile_set drv log p).1 = -EINVAL ↔
      test_bit p (casper_platform_profile_probe drv 0).2 = false) ∧
    ((casper_platform_profile_set drv log p).2 = log ↔
      test_bit p (casper_platform_profile_probe drv 0).2 = false) ∧
    (test_bit p (casper_platform_profile_probe drv 0).2 = true →
      ∃ c, c ∈ defined_codes drv.quirk_applied.new_power_scheme ∧
        (casper_platform_profile_set drv log p).2 =
          log ++ [wmi_call.block_set (casper_write_input 0x0300 c 0)]) ∧
    (drv.quirk_applied.new_power_scheme = true →
      test_bit PLATFORM_PROFILE_BALANCED_PERFORMANCE (casper_platform_profile_probe drv 0).2
        = false ∧
      casper_platform_profile_set drv log PLATFORM_PROFILE_BALANCED_PERFORMANCE
        = (-EINVAL, log)) ∧
    (drv.quirk_applied.new_power_scheme = false →
      test_bit PLATFORM_PROFILE_BALANCED_PERFORMANCE (casper_platform_profile_probe drv 0).2
        = true ∧
      (casper_platform_profile_set drv log PLATFORM_PROFILE_BALANCED_PERFORMANCE).2
        = log ++ [wmi_call.block_set (casper_write_input 0x0300 2 0)]) := by
  have hEIO : ∀ b : Bool, (if b = true then (0 : Int) else - EIO) ≠ -EINVAL := by
    intro b; cases b <;> decide
  refine ⟨?_, ?_, ?_, ?_, ?_, ?_⟩
  · rcases casper_platform_profile_set_cases drv log p with ⟨ht, hs⟩ | ⟨ht, c, _, hs⟩
    · simp [ht, hs]
    · rw [ht, hs]
      simp
  · rcases casper_platform_profile_set_cases drv log p with ⟨ht, hs⟩ | ⟨ht, c, _, hs⟩
    · simp [ht, hs]
    · rw [ht, hs]
      simpa using hEIO _
  · rcases casper_platform_profile_set_cases drv log p with ⟨ht, hs⟩ | ⟨ht, c, _, hs⟩
    · simp [ht, hs]
    · rw [ht, hs]
      simp
  · intro hadv
    rcases casper_platform_profile_set_cases drv log p with ⟨ht, hs⟩ | ⟨ht, c, hc, hs⟩
    · rw [ht] at hadv; cases hadv
    · exact ⟨c, hc, by rw [hs]⟩
  · intro hn
    have ht : test_bit PLATFORM_PROFILE_BALANCED_PERFORMANCE
        (casper_platform_profile_probe drv 0).2 = false := by
      rw [test_bit_probe, hn]; decide
    refine ⟨ht, ?_⟩
    rcases casper_platform_profile_set_cases drv log PLATFORM_PROFILE_BALANCED_PERFORMANCE
      with ⟨_, hs⟩ | ⟨ht2, _⟩
    · exact hs
    · rw [ht] at ht2; cases ht2
  · intro hn
    constructor
    · rw [test_bit_probe, hn]; decide
    · simp [casper_platform_profile_set, hn, casper_set_eq, casper_write_input,
        PLATFORM_PROFILE_PERFORMANCE, PLATFORM_PROFILE_BALANCED_PERFORMANCE, CASPER_POWERPLAN,
        CASPER_GAMING]

/-- BALANCED_PERFORMANCE on the bound driver: rejected under the new scheme,
written as code 2 under the old one. -/
theorem casper_platform_profile_set_unsupported_witness :
    casper_platform_profile_set
        (casper_drv_bound (wmi_device_answering none) gen_newer_than_11) []
        PLATFORM_PROFILE_BALANCED_PERFORMANCE = (-EINVAL, []) ∧
    (casper_platform_profile_set
        (casper_drv_bound (wmi_device_answering none) gen_older_than_11) []
        PLATFORM_PROFILE_BALANCED_PERFORMANCE).2 =
      [wmi_call.block_set (casper_write_input 0x0300 2 0)] :=
  ⟨((casper_platform_profile_set_unsupported
      (casper_drv_bound (wmi_device_answering none) gen_newer_than_11) []
      PLATFORM_PROFILE_COOL).2.2.2.2.1 rfl).2,
   ((casper_platform_profile_set_unsupported
      (casper_drv_bound (wmi_device_answering none) gen_older_than_11) []
      PLATFORM_PROFILE_COOL).2.2.2.2.2 rfl).2⟩


/-! ## Variant resolution -/

theorem x86_match_cpu_some (table : List x86_cpu_id) (c : cpuinfo_x86) (g : x86_cpu_id)
    (h : x86_match_cpu table c = some g) : g ∈ table ∧ g.hit c = true := by
  unfold x86_match_cpu at h
  exact ⟨List.mem_of_find?_eq_some h, by simpa using List.find?_some h⟩

theorem dmi_first_match_some (dmi_ident : dmi_field → Option String)
    (list : List dmi_system_id) (d : dmi_system_id)
    (h : dmi_first_match dmi_ident list = some d) :
    d ∈ list ∧ dmi_matches dmi_ident d = true := by
  unfold dmi_first_match at h
  exact ⟨List.mem_of_find?_eq_some h, by simpa using List.find?_some h⟩

/-- The probe result when the CPU lookup finds nothing. -/
theorem casper_wmi_probe_no_cpu (env : probe_env) (hk : env.devm_kzalloc_ok = true)
    (hg : x86_match_cpu (casper_gen env.fam) env.boot_cpu_data = none) :
    casper_wmi_probe env = { ret := -ENODEV } := by
  unfold casper_wmi_probe
  simp only [hk, hg]
  rfl

/-- The probe result when the CPU lookup matches and the DMI lookup finds nothing. -/
theorem casper_wmi_probe_no_dmi (env : probe_env) (hk : env.devm_kzalloc_ok = true)
    (g : x86_cpu_id) (hg : x86_match_cpu (casper_gen env.fam) env.boot_cpu_data = some g)
    (hd : dmi_first_match env.dmi_ident casper_quirks = none) :
    casper_wmi_probe env = { ret := -ENODEV, quirk_applied := some g.driver_data } := by
  unfold casper_wmi_probe
  simp only [hk, hg, hd]
  rfl

/-- The probe result when the driver object cannot be allocated. -/
theorem casper_wmi_probe_no_mem (env : probe_env) (hk : env.devm_kzalloc_ok = false) :
    casper_wmi_probe env = { ret := -ENOMEM } := by
  unfold casper_wmi_probe
  simp only [hk]
  rfl

/-- The quirk profile the probe applies when both lookups match. -/
theorem casper_wmi_probe_quirk (env : probe_env) (hk : env.devm_kzalloc_ok = true)
    (g : x86_cpu_id) (d : dmi_system_id)
    (hg : x86_match_cpu (casper_gen env.fam) env.boot_cpu_data = some g)
    (hd : dmi_first_match env.dmi_ident casper_quirks = some d) :
    (casper_wmi_probe env).quirk_applied =
      some { big_endian_fans := g.driver_data.big_endian_fans,
             new_power_scheme := g.driver_data.new_power_scheme,
             no_power_profiles := d.driver_data.no_power_profiles } := by
  unfold casper_wmi_probe
  simp only [hk, hg, hd, Bool.not_true, Bool.false_eq_true, if_false]
  split_ifs <;> rfl

/-- C10: casper_wmi_probe fails closed.  It returns 0 only if the boot CPU hits
an entry of casper_gen and the DMI identity matches an entry of casper_quirks.
If either lookup finds nothing the probe fails without a single channel call,
with -ENODEV whenever the lookups were reached (the driver object was
allocated).  When both match, the applied quirk has big_endian_fans and
new_power_scheme of the CPU entry and no_power_profiles of the product entry. -/
theorem casper_wmi_probe_fails_closed (env : probe_env) :
    ((casper_wmi_probe env).ret = 0 →
      ∃ g d, x86_match_cpu (casper_gen env.fam) env.boot_cpu_data = some g ∧
        g ∈ casper_gen env.fam ∧ g.hit env.boot_cpu_data = true ∧
        dmi_first_match env.dmi_ident casper_quirks = some d ∧
        d ∈ casper_quirks ∧ dmi_matches env.dmi_ident d = true) ∧
    ((x86_match_cpu (casper_gen env.fam) env.boot_cpu_data = none ∨
        dmi_first_match env.dmi_ident casper_quirks = none) →
      (casper_wmi_probe env).ret ≠ 0 ∧ (casper_wmi_probe env).log = [] ∧
      (env.devm_kzalloc_ok = true → (casper_wmi_probe env).ret = -ENODEV)) ∧
    (env.devm_kzalloc_ok = true → ∀ g d,
      x86_match_cpu (casper_gen env.fam) env.boot_cpu_data = some g →
      dmi_first_match env.dmi_ident casper_quirks = some d →
      (casper_wmi_probe env).quirk_applied =
        some { big_endian_fans := g.driver_data.big_endian_fans,
               new_power_scheme := g.driver_data.new_power_scheme,
               no_power_profiles := d.driver_data.no_power_profiles }) := by
  have hnomatch : (x86_match_cpu (casper_gen env.fam) env.boot_cpu_data = none ∨
        dmi_first_match env.dmi_ident casper_quirks = none) →
      (casper_wmi_probe env).ret ≠ 0 ∧ (casper_wmi_probe env).log = [] ∧
      (env.devm_kzalloc_ok = true → (casper_wmi_probe env).ret = -ENODEV) := by
    intro hno
    cases hk : env.devm_kzalloc_ok
    · rw [casper_wmi_probe_no_mem env hk]
      exact ⟨by decide, rfl, fun h => by cases h⟩
    · cases hg : x86_match_cpu (casper_gen env.fam) env.boot_cpu_data with
      | none =>
        rw [casper_wmi_probe_no_cpu env hk hg]
        exact ⟨by decide, rfl, fun _ => rfl⟩
      | some g =>
        have hd : dmi_first_match env.dmi_ident casper_quirks = none := by
          rcases hno with h | h
          · rw [hg] at h; cases h
          · exact h
        rw [casper_wmi_probe_no_dmi env hk g hg hd]
        exact ⟨show -ENODEV ≠ (0 : Int) by decide, rfl, fun _ => rfl⟩
  refine ⟨?_, hnomatch, ?_⟩
  · intro hret
    cases hg : x86_match_cpu (casper_gen env.fam) env.boot_cpu_data with
    | none => exact absurd hret (hnomatch (Or.inl hg)).1
    | some g =>
      cases hd : dmi_first_match env.dmi_ident casper_quirks with
      | none => exact absurd hret (hnomatch (Or.inr hd)).1
      | some d =>
        exact ⟨g, d, rfl, (x86_match_cpu_some _ _ _ hg).1, (x86_match_cpu_some _ _ _ hg).2,
          rfl, (dmi_first_match_some _ _ _ hd).1, (dmi_first_match_some _ _ _ hd).2⟩
  · intro hk g d hg hd
    exact casper_wmi_probe_quirk env hk g d hg hd


/-- A Kaby Lake machine with an unknown product name is refused with -ENODEV
and no channel call; an Alder Lake G650 gets little-endian fans, the new power
scheme and no power profiles. -/
theorem casper_wmi_probe_fails_closed_witness :
    (casper_wmi_probe (probe_env_sample ⟨0, 6, 0x9E⟩ "CASPER BILGISAYAR SISTEMLERI"
        "NIRVANA")).ret = -ENODEV ∧
    (casper_wmi_probe (probe_env_sample ⟨0, 6, 0x9E⟩ "CASPER BILGISAYAR SISTEMLERI"
        "NIRVANA")).log = [] ∧
    (casper_wmi_probe (probe_env_sample ⟨0, 6, 0x97⟩ "CASPER BILGISAYAR SISTEMLERI"
        "EXCALIBUR G650")).quirk_applied =
      some { big_endian_fans := false, new_power_scheme := true, no_power_profiles := true } :=
  ⟨((casper_wmi_probe_fails_closed (probe_env_sample ⟨0, 6, 0x9E⟩ "CASPER BILGISAYAR SISTEMLERI"
      "NIRVANA")).2.1 (Or.inr (by decide))).2.2 rfl,
   ((casper_wmi_probe_fails_closed (probe_env_sample ⟨0, 6, 0x9E⟩ "CASPER BILGISAYAR SISTEMLERI"
      "NIRVANA")).2.1 (Or.inr (by decide))).2.1,
   (casper_wmi_probe_fails_closed (probe_env_sample ⟨0, 6, 0x97⟩ "CASPER BILGISAYAR SISTEMLERI"
      "EXCALIBUR G650")).2.2 rfl
      (X86_MATCH_VFM linux_intel_family.INTEL_ALDERLAKE gen_newer_than_11)
      (casper_quirk_row "CASPER EXCALIBUR G650" "EXCALIBUR G650" quirk_no_power_profile)
      (by decide) (by decide)⟩

end Casper
